import Mathlib

/-!
Verification of the Chroma-Shot simulation core against its specification.

The definitions below are a shallow embedding of the game's simulation
core (src/types.ts, src/constants.ts and the Game component's logic refs
and `animate` loop).  JavaScript numbers are modelled as real numbers,
`Math.floor` as `Int.floor`, `Math.sqrt` as `Real.sqrt`, `Math.atan2`
as the argument of a complex number, and `Math.random()` draws are
passed in explicitly as parameters.  Cosmetic side effects that never
feed back into simulation state (sound playback, the React `setState`
mirrors of the logic refs, particle visuals spawned from combat code)
are not part of the combat-state embedding; the particle ring buffer
itself is embedded separately, exactly as in the source.
-/

open Classical

/-- The four projectile/target colors (src/types.ts `ColorType`). -/
inductive ColorType
  | RED
  | BLUE
  | GREEN
  | YELLOW
deriving DecidableEq, Repr

/-- The target kinds (src/types.ts `TargetType`). -/
inductive TargetType
  | NORMAL
  | SPLIT
  | TOUGH
  | STATIONARY
  | COLOR_SHIFT
  | SINE_WAVE
  | BOSS
deriving DecidableEq, Repr

/-- The cosmetic target shapes (src/types.ts `TargetShape`). -/
inductive TargetShape
  | CIRCLE
  | SQUARE
  | TRIANGLE
  | DIAMOND
  | STAR
deriving DecidableEq, Repr

/-- The difficulty tiers (src/types.ts `Difficulty`). -/
inductive Difficulty
  | EASY
  | MEDIUM
  | HARD
deriving DecidableEq, Repr

/-- Base score of each target kind (src/constants.ts `TARGET_SCORES`). -/
def TARGET_SCORES : TargetType → ℝ
  | .NORMAL => 10
  | .SPLIT => 20
  | .TOUGH => 30
  | .STATIONARY => 15
  | .COLOR_SHIFT => 25
  | .SINE_WAVE => 25
  | .BOSS => 250

/-- One difficulty tier's settings (src/constants.ts `DIFFICULTY_SETTINGS`). -/
structure DifficultySetting where
  speedMultiplier : ℝ
  spawnIntervalMultiplier : ℝ
  maxTargets : ℕ
  scoreMultiplier : ℝ
  bossHealthMulti : ℝ

/-- src/constants.ts `DIFFICULTY_SETTINGS`. -/
def DIFFICULTY_SETTINGS : Difficulty → DifficultySetting
  | .EASY => ⟨0.7, 1.3, 8, 1, 0.8⟩
  | .MEDIUM => ⟨1.0, 1.0, 12, 1.5, 1.0⟩
  | .HARD => ⟨1.5, 0.7, 16, 2, 1.5⟩

namespace GAME_CONFIG

/-- src/constants.ts `GAME_CONFIG.TARGET_RADIUS`. -/
def TARGET_RADIUS : ℝ := 32

/-- src/constants.ts `GAME_CONFIG.BOSS_RADIUS`. -/
def BOSS_RADIUS : ℝ := 60

/-- src/constants.ts `GAME_CONFIG.PROJECTILE_RADIUS`. -/
def PROJECTILE_RADIUS : ℝ := 12

/-- src/constants.ts `GAME_CONFIG.SPAWN_INTERVAL_START`. -/
def SPAWN_INTERVAL_START : ℝ := 1600

/-- src/constants.ts `GAME_CONFIG.SPAWN_INTERVAL_MIN`. -/
def SPAWN_INTERVAL_MIN : ℝ := 600

/-- src/constants.ts `GAME_CONFIG.TARGET_SPEED_BASE`. -/
def TARGET_SPEED_BASE : ℝ := 1.5

/-- src/constants.ts `GAME_CONFIG.PROJECTILE_SPEED`. -/
def PROJECTILE_SPEED : ℝ := 10

/-- src/constants.ts `GAME_CONFIG.CONTROLS_HEIGHT`. -/
def CONTROLS_HEIGHT : ℝ := 100

/-- src/constants.ts `GAME_CONFIG.POINTS_PER_LEVEL`. -/
def POINTS_PER_LEVEL : ℝ := 300

end GAME_CONFIG

/-- A target entity (src/types.ts `Target`; the string `id` is dropped,
it is only used as a React list key). -/
structure Target where
  x : ℝ
  y : ℝ
  vx : ℝ
  vy : ℝ
  color : ColorType
  radius : ℝ
  rotation : ℝ
  rotationSpeed : ℝ
  type : TargetType
  shape : TargetShape
  health : ℝ
  maxHealth : Option ℝ
  colorShiftTimer : Option ℝ
  initialY : Option ℝ
  timeOffset : Option ℝ
  summonTimer : Option ℝ

instance : Inhabited Target :=
  ⟨⟨0, 0, 0, 0, ColorType.RED, 0, 0, 0, TargetType.NORMAL, TargetShape.CIRCLE, 0,
    none, none, none, none, none⟩⟩

/-- A projectile entity (src/types.ts `Projectile`; the string `id` is
dropped, it is only used as a React list key). -/
structure Projectile where
  x : ℝ
  y : ℝ
  vx : ℝ
  vy : ℝ
  color : ColorType
  radius : ℝ
  active : Bool

/-- Per-session statistics (src/types.ts `GameStats`), accumulated in
`sessionStatsRef` of the Game component. -/
structure GameStats where
  totalScore : ℤ
  highScore : ℤ
  gamesPlayed : ℕ
  shotsFired : ℕ
  targetsHit : ℕ
  targetsMissed : ℕ
  highestStreak : ℕ
  toughKills : ℕ
  splitKills : ℕ
  stationaryKills : ℕ
  colorShiftKills : ℕ
  sineWaveKills : ℕ
  bossKills : ℕ
  highestLevel : ℕ
  hardModeGames : ℕ

/-- The session-scoped mutable aggregate (the Game component's
`gameStateRef` plus `sessionStatsRef`).  The list `handoffDelays`
records the delays of the `setTimeout(onGameOver, 1000)` calls the
mismatch branch has scheduled: one entry per scheduled session handoff. -/
structure SimState where
  targets : List Target
  currentColor : ColorType
  score : ℝ
  level : ℕ
  scoreSinceLastBoss : ℝ
  bossActive : Bool
  streak : ℕ
  speedMultiplier : ℝ
  baseSpawnInterval : ℝ
  nextSpawnDelay : ℝ
  isEnding : Bool
  shakeTimer : ℝ
  stats : GameStats
  handoffDelays : List ℝ

/-- The per-tick motion scalar of the `animate` loop
(`const timeFactor = Math.min(deltaTime / 16.667, 4)`). -/
noncomputable def timeFactor (deltaTime : ℝ) : ℝ :=
  min (deltaTime / 16.667) 4

/-- The motion scalar as the specification words it:
`clamp(deltaTimeMs / expectedFrameMs, 0, maxFactor)` with
`expectedFrameMs = 16.667` and `maxFactor = 4`. -/
noncomputable def timeFactorSpec (deltaTime : ℝ) : ℝ :=
  max 0 (min (deltaTime / 16.667) 4)

/-- C3: the claim states that the per-tick motion scalar equals
`clamp(deltaTimeMs / 16.667, 0, 4)` and in particular never goes below
0 for every real-valued input.  This is false: the code only applies
`Math.min(·, 4)` and has no lower clamp, so a negative elapsed time
yields a negative motion scalar, differing from the spec's clamp. -/
theorem timeFactor_missing_lower_clamp :
    timeFactor (-17) < 0 ∧ timeFactor (-17) ≠ timeFactorSpec (-17) := by
  have h : timeFactor (-17) = (-17 : ℝ) / 16.667 := by
    unfold timeFactor
    rw [min_eq_left]
    norm_num
  constructor
  · rw [h]; norm_num
  · have h2 : timeFactorSpec (-17) = 0 := by
      unfold timeFactorSpec
      rw [max_eq_left]
      rw [min_le_iff]
      left
      norm_num
    rw [h, h2]
    norm_num

/-- C3 (amended): the per-tick motion scalar equals
`min(deltaTimeMs / 16.667, 4)`: it never exceeds 4 for any real input,
and it is nonnegative whenever the elapsed time is nonnegative (which
the monotonically increasing timestamps required of callers guarantee). -/
theorem timeFactor_bounds (deltaTime : ℝ) :
    timeFactor deltaTime ≤ 4 ∧ (0 ≤ deltaTime → 0 ≤ timeFactor deltaTime) := by
  constructor
  · exact min_le_right _ _
  · intro h
    unfold timeFactor
    apply le_min
    · positivity
    · norm_num

/-- Witness for the amended C3 theorem at the concrete elapsed time 100 ms. -/
theorem timeFactor_bounds_witness :
    timeFactor 100 ≤ 4 ∧ 0 ≤ timeFactor 100 := by
  refine ⟨(timeFactor_bounds 100).1, (timeFactor_bounds 100).2 (by norm_num)⟩

/-- The per-type tag of a visual-effect particle (src/types.ts
`Particle.type`). -/
inductive ParticleKind
  | BURST
  | DEBRIS
  | TRAIL
  | RING
  | SPARK
deriving DecidableEq, Repr

/-- A particle entity (src/types.ts `Particle`).  `kind` embeds the
optional `type` field and `rotation` the optional `rotation` field. -/
structure Particle where
  id : String
  x : ℝ
  y : ℝ
  vx : ℝ
  vy : ℝ
  life : ℝ
  color : String
  size : ℝ
  kind : Option ParticleKind
  active : Bool
  rotation : Option ℝ

instance : Inhabited Particle :=
  ⟨⟨"", 0, 0, 0, 0, 0, "", 0, none, false, none⟩⟩

/-- A `Partial<Particle>` as passed to `spawnParticle`: each field is
present or absent.  The call sites never pass `id`, and a passed
`active` is immediately overwritten by `p.active = true`, so those two
fields are omitted. -/
structure ParticleConfig where
  x : Option ℝ
  y : Option ℝ
  vx : Option ℝ
  vy : Option ℝ
  life : Option ℝ
  color : Option String
  size : Option ℝ
  kind : Option ParticleKind
  rotation : Option ℝ

/-- `Object.assign(p, config)`: fields present in the config overwrite
the slot's fields. -/
def assignConfig (p : Particle) (c : ParticleConfig) : Particle :=
  { p with
    x := c.x.getD p.x
    y := c.y.getD p.y
    vx := c.vx.getD p.vx
    vy := c.vy.getD p.vy
    life := c.life.getD p.life
    color := c.color.getD p.color
    size := c.size.getD p.size
    kind := c.kind.orElse fun _ => p.kind
    rotation := c.rotation.orElse fun _ => p.rotation }

/-- The particle ring buffer: the Game component's
`particlePool`/`particleCursor` pair inside `gameStateRef`. -/
structure ParticlePool where
  pool : List Particle
  cursor : ℕ

/-- The recycled slot's new value: `Object.assign(p, config)`, then
`p.active = true`, then `if (config.rotation === undefined) p.rotation = 0`. -/
def spawnedSlot (p : Particle) (c : ParticleConfig) : Particle :=
  let p1 := assignConfig p c
  { p1 with
    active := true
    rotation := if c.rotation.isNone then some 0 else p1.rotation }

/-- The Game component's `spawnParticle` (O(1) ring-buffer allocation):
take the slot at the cursor, advance the cursor modulo the pool length,
and overwrite the slot from the caller's config, marking it active. -/
def spawnParticle (st : ParticlePool) (c : ParticleConfig) : ParticlePool :=
  if st.pool.length = 0 then st
  else
    let idx := st.cursor
    let p := st.pool.getD idx default
    { pool := st.pool.set idx (spawnedSlot p c)
      cursor := (idx + 1) % st.pool.length }

/-- One slot of the initial fixed pool
(`id: p-pool-i, all-zero fields, color '#fff', type 'BURST', inactive`). -/
def initParticle (i : ℕ) : Particle :=
  { id := "p-pool-" ++ toString i
    x := 0, y := 0, vx := 0, vy := 0, life := 0
    color := "#fff"
    size := 0
    kind := some ParticleKind.BURST
    active := false
    rotation := none }

/-- The pool built by the pool-initialization effect: exactly 600 slots. -/
def initParticlePool : ParticlePool :=
  { pool := (List.range 600).map initParticle, cursor := 0 }

/-- Number of simultaneously active particles in the pool. -/
def activeParticleCount (st : ParticlePool) : ℕ :=
  st.pool.countP fun p => p.active

theorem spawnParticle_pool_length (st : ParticlePool) (c : ParticleConfig) :
    (spawnParticle st c).pool.length = st.pool.length := by
  unfold spawnParticle
  split
  · rfl
  · simp [List.length_set]

theorem foldl_spawnParticle_pool_length (cfgs : List ParticleConfig) (st : ParticlePool) :
    (cfgs.foldl spawnParticle st).pool.length = st.pool.length := by
  induction cfgs generalizing st with
  | nil => rfl
  | cons c cs ih =>
    simp only [List.foldl_cons]
    rw [ih, spawnParticle_pool_length]

theorem spawnParticle_cursor (st : ParticlePool) (c : ParticleConfig)
    (h : st.pool.length = 600) :
    (spawnParticle st c).cursor = (st.cursor + 1) % 600 := by
  unfold spawnParticle
  rw [h]
  norm_num

theorem foldl_spawnParticle_cursor (cfgs : List ParticleConfig) (st : ParticlePool)
    (h : st.pool.length = 600) (hc : st.cursor < 600) :
    (cfgs.foldl spawnParticle st).cursor = (st.cursor + cfgs.length) % 600 := by
  induction cfgs generalizing st with
  | nil =>
    simp only [List.foldl_nil, List.length_nil, Nat.add_zero]
    exact (Nat.mod_eq_of_lt hc).symm
  | cons c cs ih =>
    simp only [List.foldl_cons, List.length_cons]
    rw [ih _ (by rw [spawnParticle_pool_length, h])
      (by rw [spawnParticle_cursor st c h]; exact Nat.mod_lt _ (by norm_num)),
      spawnParticle_cursor st c h, Nat.mod_add_mod]
    ring_nf

theorem activeParticleCount_le_length (st : ParticlePool) :
    activeParticleCount st ≤ st.pool.length :=
  List.countP_le_length _

/-- C9: the particle pool holds exactly 600 slots from initialization on;
any sequence of `spawnParticle` calls leaves the slot count at 600 (the
pool never grows or shrinks), keeps the number of simultaneously active
particles at most 600, and advances the allocation cursor by one per
call, wrapping modulo the pool length; each acquisition succeeds by
overwriting (recycling) the slot at the current cursor. -/
theorem particle_pool_ring_buffer_invariants :
    initParticlePool.pool.length = 600 ∧ initParticlePool.cursor = 0 ∧
    (∀ (cfgs : List ParticleConfig) (st : ParticlePool),
      st.pool.length = 600 → st.cursor < 600 →
        (cfgs.foldl spawnParticle st).pool.length = 600 ∧
        activeParticleCount (cfgs.foldl spawnParticle st) ≤ 600 ∧
        (cfgs.foldl spawnParticle st).cursor = (st.cursor + cfgs.length) % 600) ∧
    (∀ (st : ParticlePool) (c : ParticleConfig), st.pool.length = 600 →
      spawnParticle st c =
        ⟨st.pool.set st.cursor (spawnedSlot (st.pool.getD st.cursor default) c),
         (st.cursor + 1) % 600⟩) := by
  refine ⟨?_, rfl, ?_, ?_⟩
  · simp [initParticlePool]
  · intro cfgs st h hc
    refine ⟨?_, ?_, foldl_spawnParticle_cursor cfgs st h hc⟩
    · rw [foldl_spawnParticle_pool_length, h]
    · calc activeParticleCount (cfgs.foldl spawnParticle st)
          ≤ (cfgs.foldl spawnParticle st).pool.length := activeParticleCount_le_length _
        _ = 600 := by rw [foldl_spawnParticle_pool_length, h]
  · intro st c h
    unfold spawnParticle
    rw [h]
    norm_num

/-- Witness for C9 at the concrete initial pool and a single
all-defaults acquisition. -/
theorem particle_pool_ring_buffer_invariants_witness :
    (([⟨none, none, none, none, none, none, none, none, none⟩] :
        List ParticleConfig).foldl spawnParticle initParticlePool).pool.length = 600 ∧
    activeParticleCount
      (([⟨none, none, none, none, none, none, none, none, none⟩] :
        List ParticleConfig).foldl spawnParticle initParticlePool) ≤ 600 ∧
    (([⟨none, none, none, none, none, none, none, none, none⟩] :
        List ParticleConfig).foldl spawnParticle initParticlePool).cursor =
      (0 + 1) % 600 :=
  particle_pool_ring_buffer_invariants.2.2.1
    [⟨none, none, none, none, none, none, none, none, none⟩] initParticlePool
    (by simp [initParticlePool]) (by norm_num [initParticlePool])

/-- `Math.atan2(y, x)`, embedded as the argument of the complex number
`x + y*i` (both return the angle of the vector `(x, y)` in `(-pi, pi]`,
and both return `0` on the zero vector). -/
noncomputable def atan2 (y x : ℝ) : ℝ :=
  Complex.arg ⟨x, y⟩

/-- `getAimAssistVector`'s `ASSIST_CONE_ANGLE = 15 * (Math.PI / 180)`. -/
noncomputable def ASSIST_CONE_ANGLE : ℝ := 15 * (Real.pi / 180)

/-- `getAimAssistVector`'s `ASSIST_STRENGTH = 0.3`. -/
def ASSIST_STRENGTH : ℝ := 0.3

/-- Distance from the shot origin to a target
(`Math.sqrt(dx*dx + dy*dy)` with `dx = t.x - startX`, `dy = t.y - startY`). -/
noncomputable def targetDist (startX startY : ℝ) (t : Target) : ℝ :=
  Real.sqrt ((t.x - startX) * (t.x - startX) + (t.y - startY) * (t.y - startY))

/-- Angular deviation between the raw aim direction and the direction to
a target, wrapped into `[0, pi]` exactly as in the source:
`angleDiff = |angleToTarget - baseAngle|; if (angleDiff > pi) angleDiff = 2*pi - angleDiff`. -/
noncomputable def targetAngleDiff (startX startY baseAngle : ℝ) (t : Target) : ℝ :=
  let angleToTarget := atan2 (t.y - startY) (t.x - startX)
  let a := |angleToTarget - baseAngle|
  if a > Real.pi then 2 * Real.pi - a else a

/-- The perfect-intercept velocity toward a target:
`((dx/dist)*speed, (dy/dist)*speed)`. -/
noncomputable def perfectVelocity (startX startY speed : ℝ) (t : Target) : ℝ × ℝ :=
  let dx := t.x - startX
  let dy := t.y - startY
  let dist := targetDist startX startY t
  ((dx / dist) * speed, (dy / dist) * speed)

/-- A target the candidate loop of `getAimAssistVector` can select: it
has the currently selected color, is not degenerately close to the shot
origin (the `dist <= 0.1` guard skips it otherwise), and its angular
deviation from the raw aim direction is strictly inside the assist cone. -/
def isAssistCandidate (cc : ColorType) (startX startY baseAngle : ℝ) (t : Target) : Prop :=
  t.color = cc ∧ 0.1 < targetDist startX startY t ∧
    targetAngleDiff startX startY baseAngle t < ASSIST_CONE_ANGLE

/-- One iteration of the candidate loop of `getAimAssistVector`.  The
accumulator holds `minAngleDiff` (initially `Infinity`, modelled by
`none`) together with `(perfectVx, perfectVy)` of the best target so far. -/
noncomputable def assistStep (cc : ColorType) (startX startY baseAngle speed : ℝ)
    (acc : Option (ℝ × ℝ × ℝ)) (t : Target) : Option (ℝ × ℝ × ℝ) :=
  if t.color = cc then
    if targetDist startX startY t ≤ 0.1 then acc
    else
      if targetAngleDiff startX startY baseAngle t < ASSIST_CONE_ANGLE ∧
          acc.elim True (fun a => targetAngleDiff startX startY baseAngle t < a.1) then
        some (targetAngleDiff startX startY baseAngle t, perfectVelocity startX startY speed t)
      else acc
  else acc

/-- The result of `getAimAssistVector`: a velocity vector and the
`assisted` flag. -/
structure AssistResult where
  vx : ℝ
  vy : ℝ
  assisted : Bool

/-- The Game component's `getAimAssistVector`, with the currently
selected color (`gameStateRef.current.currentColor`) passed explicitly. -/
noncomputable def getAimAssistVector (cc : ColorType)
    (startX startY baseVx baseVy : ℝ) (targets : List Target) : AssistResult :=
  let baseAngle := atan2 baseVy baseVx
  let speed := Real.sqrt (baseVx * baseVx + baseVy * baseVy)
  if speed < 0.1 then ⟨baseVx, baseVy, false⟩
  else
    match targets.foldl (assistStep cc startX startY baseAngle speed) none with
    | none => ⟨baseVx, baseVy, false⟩
    | some (_, perfectVx, perfectVy) =>
        let newVx := baseVx + (perfectVx - baseVx) * ASSIST_STRENGTH
        let newVy := baseVy + (perfectVy - baseVy) * ASSIST_STRENGTH
        let newSpeed := Real.sqrt (newVx * newVx + newVy * newVy)
        if newSpeed > 0 then
          ⟨(newVx / newSpeed) * speed, (newVy / newSpeed) * speed, true⟩
        else ⟨baseVx, baseVy, false⟩

theorem assistStep_not_candidate {cc : ColorType} {sx sy ba : ℝ} (sp : ℝ)
    {t : Target} (acc : Option (ℝ × ℝ × ℝ))
    (h : ¬ isAssistCandidate cc sx sy ba t) :
    assistStep cc sx sy ba sp acc t = acc := by
  unfold isAssistCandidate at h
  push_neg at h
  unfold assistStep
  by_cases h1 : t.color = cc
  · rw [if_pos h1]
    by_cases h2 : targetDist sx sy t ≤ 0.1
    · rw [if_pos h2]
    · rw [if_neg h2, if_neg]
      intro hc
      exact absurd hc.1 (not_lt.mpr (h h1 (not_le.mp h2)))
  · rw [if_neg h1]

theorem assistStep_candidate_none {cc : ColorType} {sx sy ba : ℝ} (sp : ℝ)
    {t : Target} (h : isAssistCandidate cc sx sy ba t) :
    assistStep cc sx sy ba sp none t =
      some (targetAngleDiff sx sy ba t, perfectVelocity sx sy sp t) := by
  obtain ⟨h1, h2, h3⟩ := h
  unfold assistStep
  rw [if_pos h1, if_neg (not_le.mpr h2), if_pos ⟨h3, trivial⟩]

theorem assistStep_candidate_some_lt {cc : ColorType} {sx sy ba : ℝ} (sp : ℝ)
    {t : Target} {a : ℝ × ℝ × ℝ} (h : isAssistCandidate cc sx sy ba t)
    (hlt : targetAngleDiff sx sy ba t < a.1) :
    assistStep cc sx sy ba sp (some a) t =
      some (targetAngleDiff sx sy ba t, perfectVelocity sx sy sp t) := by
  obtain ⟨h1, h2, h3⟩ := h
  unfold assistStep
  rw [if_pos h1, if_neg (not_le.mpr h2), if_pos ⟨h3, hlt⟩]

theorem assistStep_candidate_some_ge {cc : ColorType} {sx sy ba : ℝ} (sp : ℝ)
    {t : Target} {a : ℝ × ℝ × ℝ} (h : isAssistCandidate cc sx sy ba t)
    (hge : a.1 ≤ targetAngleDiff sx sy ba t) :
    assistStep cc sx sy ba sp (some a) t = some a := by
  obtain ⟨h1, h2, _⟩ := h
  unfold assistStep
  rw [if_pos h1, if_neg (not_le.mpr h2), if_neg]
  intro hc
  exact absurd hc.2 (not_lt.mpr hge)

theorem assistFold_spec (cc : ColorType) (sx sy ba sp : ℝ)
    (ts : List Target) (acc : Option (ℝ × ℝ × ℝ)) :
    (ts.foldl (assistStep cc sx sy ba sp) acc = acc ∧
      (∀ t ∈ ts, isAssistCandidate cc sx sy ba t →
        ∃ a, acc = some a ∧ a.1 ≤ targetAngleDiff sx sy ba t)) ∨
    (∃ pre t suf, ts = pre ++ t :: suf ∧ isAssistCandidate cc sx sy ba t ∧
      ts.foldl (assistStep cc sx sy ba sp) acc =
        some (targetAngleDiff sx sy ba t, perfectVelocity sx sy sp t) ∧
      (∀ a, acc = some a → targetAngleDiff sx sy ba t < a.1) ∧
      (∀ u ∈ pre, isAssistCandidate cc sx sy ba u →
        targetAngleDiff sx sy ba t < targetAngleDiff sx sy ba u) ∧
      (∀ u ∈ suf, isAssistCandidate cc sx sy ba u →
        targetAngleDiff sx sy ba t ≤ targetAngleDiff sx sy ba u)) := by
  induction ts generalizing acc with
  | nil =>
    left
    exact ⟨rfl, by simp⟩
  | cons t rest ih =>
    by_cases hc : isAssistCandidate cc sx sy ba t
    · rcases acc with _ | a
      · -- accumulator still empty: the candidate is taken
        have hstep : assistStep cc sx sy ba sp none t =
            some (targetAngleDiff sx sy ba t, perfectVelocity sx sy sp t) :=
          assistStep_candidate_none sp hc
        rcases ih (some (targetAngleDiff sx sy ba t, perfectVelocity sx sy sp t)) with
          ⟨hres, hdom⟩ | ⟨pre, u, suf, heq, hcand, hres, haccc, hpre, hsuf⟩
        · right
          refine ⟨[], t, rest, rfl, hc, ?_, ?_, by simp, ?_⟩
          · rw [List.foldl_cons, hstep, hres]
          · intro a ha
            exact absurd ha (by simp)
          · intro u hu hcu
            obtain ⟨a, ha, hle⟩ := hdom u hu hcu
            rw [Option.some_inj] at ha
            rw [← ha] at hle
            exact hle
        · right
          refine ⟨t :: pre, u, suf, by rw [heq, List.cons_append], hcand, ?_, ?_, ?_, hsuf⟩
          · rw [List.foldl_cons, hstep, hres]
          · intro a ha
            exact absurd ha (by simp)
          · intro v hv hcv
            rcases List.mem_cons.mp hv with rfl | hv'
            · exact haccc _ rfl
            · exact hpre v hv' hcv
      · by_cases hlt : targetAngleDiff sx sy ba t < a.1
        · -- strictly better than the best so far: the candidate is taken
          have hstep : assistStep cc sx sy ba sp (some a) t =
              some (targetAngleDiff sx sy ba t, perfectVelocity sx sy sp t) :=
            assistStep_candidate_some_lt sp hc hlt
          rcases ih (some (targetAngleDiff sx sy ba t, perfectVelocity sx sy sp t)) with
            ⟨hres, hdom⟩ | ⟨pre, u, suf, heq, hcand, hres, haccc, hpre, hsuf⟩
          · right
            refine ⟨[], t, rest, rfl, hc, ?_, ?_, by simp, ?_⟩
            · rw [List.foldl_cons, hstep, hres]
            · intro a' ha'
              rw [Option.some_inj] at ha'
              rw [← ha']
              exact hlt
            · intro u hu hcu
              obtain ⟨a', ha', hle⟩ := hdom u hu hcu
              rw [Option.some_inj] at ha'
              rw [← ha'] at hle
              exact hle
          · right
            refine ⟨t :: pre, u, suf, by rw [heq, List.cons_append], hcand, ?_, ?_, ?_, hsuf⟩
            · rw [List.foldl_cons, hstep, hres]
            · intro a' ha'
              rw [Option.some_inj] at ha'
              have := haccc _ rfl
              rw [← ha']
              exact lt_trans this hlt
            · intro v hv hcv
              rcases List.mem_cons.mp hv with rfl | hv'
              · exact haccc _ rfl
              · exact hpre v hv' hcv
        · -- not better: the accumulator is kept
          have hstep : assistStep cc sx sy ba sp (some a) t = some a :=
            assistStep_candidate_some_ge sp hc (not_lt.mp hlt)
          rcases ih (some a) with
            ⟨hres, hdom⟩ | ⟨pre, u, suf, heq, hcand, hres, haccc, hpre, hsuf⟩
          · left
            constructor
            · rw [List.foldl_cons, hstep, hres]
            · intro v hv hcv
              rcases List.mem_cons.mp hv with rfl | hv'
              · exact ⟨a, rfl, not_lt.mp hlt⟩
              · exact hdom v hv' hcv
          · right
            refine ⟨t :: pre, u, suf, by rw [heq, List.cons_append], hcand, ?_, haccc, ?_, hsuf⟩
            · rw [List.foldl_cons, hstep, hres]
            · intro v hv hcv
              rcases List.mem_cons.mp hv with rfl | hv'
              · exact lt_of_lt_of_le (haccc _ rfl) (not_lt.mp hlt)
              · exact hpre v hv' hcv
    · -- not a candidate: the loop skips this target
      have hstep : assistStep cc sx sy ba sp acc t = acc :=
        assistStep_not_candidate sp acc hc
      rcases ih acc with
        ⟨hres, hdom⟩ | ⟨pre, u, suf, heq, hcand, hres, haccc, hpre, hsuf⟩
      · left
        constructor
        · rw [List.foldl_cons, hstep, hres]
        · intro v hv hcv
          rcases List.mem_cons.mp hv with rfl | hv'
          · exact absurd hcv hc
          · exact hdom v hv' hcv
      · right
        refine ⟨t :: pre, u, suf, by rw [heq, List.cons_append], hcand, ?_, haccc, ?_, hsuf⟩
        · rw [List.foldl_cons, hstep, hres]
        · intro v hv hcv
          rcases List.mem_cons.mp hv with rfl | hv'
          · exact absurd hcv hc
          · exact hpre v hv' hcv

theorem mag_scale (k x y : ℝ) :
    Real.sqrt ((k * x) * (k * x) + (k * y) * (k * y)) = |k| * Real.sqrt (x * x + y * y) := by
  have h : (k * x) * (k * x) + (k * y) * (k * y) = (k * k) * (x * x + y * y) := by ring
  rw [h, Real.sqrt_mul (mul_self_nonneg k), Real.sqrt_mul_self_eq_abs]

theorem perfectVelocity_sq {sx sy : ℝ} (sp : ℝ) {t : Target}
    (hd : 0 < targetDist sx sy t) :
    (perfectVelocity sx sy sp t).1 * (perfectVelocity sx sy sp t).1 +
      (perfectVelocity sx sy sp t).2 * (perfectVelocity sx sy sp t).2 = sp * sp := by
  have hdd : targetDist sx sy t * targetDist sx sy t =
      (t.x - sx) * (t.x - sx) + (t.y - sy) * (t.y - sy) := by
    unfold targetDist
    exact Real.mul_self_sqrt (add_nonneg (mul_self_nonneg _) (mul_self_nonneg _))
  have hne : targetDist sx sy t ≠ 0 := ne_of_gt hd
  unfold perfectVelocity
  simp only
  field_simp
  nlinarith [hdd]

theorem normalized_mag {nx ny sp : ℝ} (hns : 0 < Real.sqrt (nx * nx + ny * ny))
    (hsp : 0 ≤ sp) :
    Real.sqrt ((nx / Real.sqrt (nx * nx + ny * ny) * sp) *
        (nx / Real.sqrt (nx * nx + ny * ny) * sp) +
      (ny / Real.sqrt (nx * nx + ny * ny) * sp) *
        (ny / Real.sqrt (nx * nx + ny * ny) * sp)) = sp := by
  have h1 : nx / Real.sqrt (nx * nx + ny * ny) * sp =
      (sp / Real.sqrt (nx * nx + ny * ny)) * nx := by ring
  have h2 : ny / Real.sqrt (nx * nx + ny * ny) * sp =
      (sp / Real.sqrt (nx * nx + ny * ny)) * ny := by ring
  rw [h1, h2, mag_scale, abs_of_nonneg (div_nonneg hsp hns.le)]
  field_simp

theorem blend_speed_pos {bvx bvy pvx pvy : ℝ}
    (hb : 0.1 ≤ Real.sqrt (bvx * bvx + bvy * bvy))
    (hp : pvx * pvx + pvy * pvy = bvx * bvx + bvy * bvy) :
    0 < Real.sqrt ((bvx + (pvx - bvx) * ASSIST_STRENGTH) *
        (bvx + (pvx - bvx) * ASSIST_STRENGTH) +
      (bvy + (pvy - bvy) * ASSIST_STRENGTH) * (bvy + (pvy - bvy) * ASSIST_STRENGTH)) := by
  have hS : (0.01 : ℝ) ≤ bvx * bvx + bvy * bvy := by
    have := (Real.le_sqrt (by norm_num)
      (add_nonneg (mul_self_nonneg _) (mul_self_nonneg _))).mp hb
    nlinarith [this]
  rw [Real.sqrt_pos]
  by_contra hle
  push_neg at hle
  unfold ASSIST_STRENGTH at hle
  have hA : bvx + (pvx - bvx) * 0.3 = 0 := by
    nlinarith [mul_self_nonneg (bvx + (pvx - bvx) * 0.3),
      mul_self_nonneg (bvy + (pvy - bvy) * 0.3)]
  have hB : bvy + (pvy - bvy) * 0.3 = 0 := by
    nlinarith [mul_self_nonneg (bvx + (pvx - bvx) * 0.3),
      mul_self_nonneg (bvy + (pvy - bvy) * 0.3)]
  have hpx : pvx = -(7 / 3) * bvx := by linarith
  have hpy : pvy = -(7 / 3) * bvy := by linarith
  have hx2 : pvx * pvx = (49 / 9) * (bvx * bvx) := by rw [hpx]; ring
  have hy2 : pvy * pvy = (49 / 9) * (bvy * bvy) := by rw [hpy]; ring
  linarith [hp, hx2, hy2, hS]

theorem assistFold_no_candidate {cc : ColorType} {sx sy ba : ℝ} (sp : ℝ)
    (ts : List Target) (acc : Option (ℝ × ℝ × ℝ))
    (h : ∀ t ∈ ts, ¬ isAssistCandidate cc sx sy ba t) :
    ts.foldl (assistStep cc sx sy ba sp) acc = acc := by
  induction ts generalizing acc with
  | nil => rfl
  | cons t rest ih =>
    rw [List.foldl_cons, assistStep_not_candidate sp acc (h t (List.mem_cons_self t rest))]
    exact ih acc fun u hu => h u (List.mem_cons_of_mem t hu)

theorem getAimAssistVector_raw_of_slow (cc : ColorType) (sx sy bvx bvy : ℝ)
    (ts : List Target) (h : Real.sqrt (bvx * bvx + bvy * bvy) < 0.1) :
    getAimAssistVector cc sx sy bvx bvy ts = ⟨bvx, bvy, false⟩ := by
  unfold getAimAssistVector
  rw [if_pos h]

theorem getAimAssistVector_raw_of_no_candidate (cc : ColorType) (sx sy bvx bvy : ℝ)
    (ts : List Target)
    (h : ∀ t ∈ ts, ¬ isAssistCandidate cc sx sy (atan2 bvy bvx) t) :
    getAimAssistVector cc sx sy bvx bvy ts = ⟨bvx, bvy, false⟩ := by
  unfold getAimAssistVector
  by_cases hs : Real.sqrt (bvx * bvx + bvy * bvy) < 0.1
  · rw [if_pos hs]
  · rw [if_neg hs, assistFold_no_candidate _ _ _ h]

/-- The blended assisted vector as the specification words it: the raw
velocity moved toward the perfect-intercept velocity by the fixed
strength fraction 0.3, then re-normalized to the original shot speed. -/
noncomputable def blendedAssistSpec (sx sy bvx bvy : ℝ) (t : Target) : ℝ × ℝ :=
  let speed := Real.sqrt (bvx * bvx + bvy * bvy)
  let pv := perfectVelocity sx sy speed t
  let newVx := bvx + (pv.1 - bvx) * ASSIST_STRENGTH
  let newVy := bvy + (pv.2 - bvy) * ASSIST_STRENGTH
  let newSpeed := Real.sqrt (newVx * newVx + newVy * newVy)
  ((newVx / newSpeed) * speed, (newVy / newSpeed) * speed)

/-- C7 (amended): `getAimAssistVector` returns the raw vector exactly
when the raw magnitude is below 0.1 or when no candidate exists, where
a candidate is a target of the selected color at distance more than 0.1
from the origin (nearer targets are skipped by the degeneracy guard,
which the original claim omits) whose angular deviation is strictly
inside the 15-degree cone; otherwise it returns the strength-0.3
blended, re-normalized vector toward the first-encountered candidate of
minimal angular deviation, and the returned vector's magnitude equals
the raw vector's magnitude. -/
theorem aim_assist_selection_behavior (cc : ColorType) (sx sy bvx bvy : ℝ)
    (ts : List Target) :
    (Real.sqrt (bvx * bvx + bvy * bvy) < 0.1 →
      getAimAssistVector cc sx sy bvx bvy ts = ⟨bvx, bvy, false⟩) ∧
    ((∀ t ∈ ts, ¬ isAssistCandidate cc sx sy (atan2 bvy bvx) t) →
      getAimAssistVector cc sx sy bvx bvy ts = ⟨bvx, bvy, false⟩) ∧
    (0.1 ≤ Real.sqrt (bvx * bvx + bvy * bvy) →
      ∀ t0 ∈ ts, isAssistCandidate cc sx sy (atan2 bvy bvx) t0 →
      ∃ pre b suf, ts = pre ++ b :: suf ∧
        isAssistCandidate cc sx sy (atan2 bvy bvx) b ∧
        (∀ u ∈ pre, isAssistCandidate cc sx sy (atan2 bvy bvx) u →
          targetAngleDiff sx sy (atan2 bvy bvx) b <
            targetAngleDiff sx sy (atan2 bvy bvx) u) ∧
        (∀ u ∈ ts, isAssistCandidate cc sx sy (atan2 bvy bvx) u →
          targetAngleDiff sx sy (atan2 bvy bvx) b ≤
            targetAngleDiff sx sy (atan2 bvy bvx) u) ∧
        getAimAssistVector cc sx sy bvx bvy ts =
          ⟨(blendedAssistSpec sx sy bvx bvy b).1, (blendedAssistSpec sx sy bvx bvy b).2,
            true⟩ ∧
        Real.sqrt ((blendedAssistSpec sx sy bvx bvy b).1 *
            (blendedAssistSpec sx sy bvx bvy b).1 +
          (blendedAssistSpec sx sy bvx bvy b).2 * (blendedAssistSpec sx sy bvx bvy b).2) =
          Real.sqrt (bvx * bvx + bvy * bvy)) := by
  refine ⟨getAimAssistVector_raw_of_slow cc sx sy bvx bvy ts,
    getAimAssistVector_raw_of_no_candidate cc sx sy bvx bvy ts, ?_⟩
  intro hb t0 ht0 hc0
  rcases assistFold_spec cc sx sy (atan2 bvy bvx) (Real.sqrt (bvx * bvx + bvy * bvy)) ts
      none with ⟨_, hdom⟩ | ⟨pre, b, suf, heq, hcand, hres, _, hpre, hsuf⟩
  · obtain ⟨a, ha, _⟩ := hdom t0 ht0 hc0
    exact absurd ha (by simp)
  · have hd : 0 < targetDist sx sy b := lt_trans (by norm_num) hcand.2.1
    have hsq := @perfectVelocity_sq sx sy (Real.sqrt (bvx * bvx + bvy * bvy)) b hd
    have hsq' : (perfectVelocity sx sy (Real.sqrt (bvx * bvx + bvy * bvy)) b).1 *
        (perfectVelocity sx sy (Real.sqrt (bvx * bvx + bvy * bvy)) b).1 +
        (perfectVelocity sx sy (Real.sqrt (bvx * bvx + bvy * bvy)) b).2 *
        (perfectVelocity sx sy (Real.sqrt (bvx * bvx + bvy * bvy)) b).2 =
        bvx * bvx + bvy * bvy := by
      rw [hsq]
      exact Real.mul_self_sqrt (add_nonneg (mul_self_nonneg _) (mul_self_nonneg _))
    have hpos := blend_speed_pos hb hsq'
    refine ⟨pre, b, suf, heq, hcand, hpre, ?_, ?_, ?_⟩
    · intro u hu hcu
      rw [heq] at hu
      rcases List.mem_append.mp hu with hu' | hu'
      · exact le_of_lt (hpre u hu' hcu)
      · rcases List.mem_cons.mp hu' with rfl | hu''
        · exact le_refl _
        · exact hsuf u hu'' hcu
    · unfold getAimAssistVector
      rw [if_neg (not_lt.mpr hb), hres]
      simp only
      rw [if_pos hpos]
      unfold blendedAssistSpec
      simp only
    · unfold blendedAssistSpec
      simp only
      exact normalized_mag hpos (Real.sqrt_nonneg _)

/-- Witness for the amended C7 theorem: with no targets at all, a raw
vector of speed 10 is returned exactly. -/
theorem aim_assist_selection_behavior_witness :
    getAimAssistVector ColorType.RED 0 0 10 0 [] = ⟨10, 0, false⟩ :=
  (aim_assist_selection_behavior ColorType.RED 0 0 10 0 []).2.1 (by simp)

/-- A RED target 0.0806 length units from the shot origin, about 7.1
degrees off the raw aim direction `(10, 0)`: inside the assist cone,
matching color, but skipped by the `dist <= 0.1` degeneracy guard. -/
noncomputable def assistCexTarget : Target :=
  ⟨0.08, 0.01, 0, 0, ColorType.RED, 32, 0, 0, TargetType.NORMAL, TargetShape.CIRCLE, 1,
    none, none, none, none, none⟩

theorem assistCex_baseAngle : atan2 0 10 = 0 := by
  unfold atan2
  have h : (⟨10, 0⟩ : ℂ) = ((10 : ℝ) : ℂ) := by
    apply Complex.ext <;> simp
  rw [h, Complex.arg_ofReal_of_nonneg (by norm_num)]

theorem assistCex_dist : targetDist 0 0 assistCexTarget = Real.sqrt 0.0065 := by
  unfold targetDist assistCexTarget
  norm_num

theorem targetAngleDiff_eval (sx sy ba : ℝ) (t : Target) :
    targetAngleDiff sx sy ba t =
      if |Complex.arg ⟨t.x - sx, t.y - sy⟩ - ba| > Real.pi
      then 2 * Real.pi - |Complex.arg ⟨t.x - sx, t.y - sy⟩ - ba|
      else |Complex.arg ⟨t.x - sx, t.y - sy⟩ - ba| := rfl

theorem assistCex_arg :
    Complex.arg ⟨0.08, 0.01⟩ = Real.arcsin (0.01 / Real.sqrt 0.0065) := by
  unfold Complex.arg
  rw [if_pos (by norm_num : (0 : ℝ) ≤ (⟨0.08, 0.01⟩ : ℂ).re)]
  have habs : Complex.abs ⟨0.08, 0.01⟩ = Real.sqrt 0.0065 := by
    rw [Complex.abs_apply, Complex.normSq_mk]
    norm_num
  rw [habs]

theorem assistCex_angle :
    targetAngleDiff 0 0 (atan2 0 10) assistCexTarget =
      Real.arcsin (0.01 / Real.sqrt 0.0065) := by
  have hnonneg : 0 ≤ Real.arcsin (0.01 / Real.sqrt 0.0065) := by
    rw [Real.arcsin_nonneg]
    positivity
  have hle : Real.arcsin (0.01 / Real.sqrt 0.0065) ≤ Real.pi / 2 :=
    Real.arcsin_le_pi_div_two _
  rw [assistCex_baseAngle, targetAngleDiff_eval]
  have hx : assistCexTarget.x - 0 = (0.08 : ℝ) := by
    unfold assistCexTarget
    norm_num
  have hy : assistCexTarget.y - 0 = (0.01 : ℝ) := by
    unfold assistCexTarget
    norm_num
  rw [hx, hy, assistCex_arg, sub_zero, abs_of_nonneg hnonneg]
  rw [if_neg]
  push_neg
  have hpi : Real.pi / 2 ≤ Real.pi := by linarith [Real.pi_pos]
  linarith

theorem assistCex_speed : Real.sqrt ((10 : ℝ) * 10 + 0 * 0) = 10 := by
  have h : (10 : ℝ) * 10 + 0 * 0 = 10 ^ 2 := by norm_num
  rw [h, Real.sqrt_sq (by norm_num)]

theorem assistCex_in_cone :
    Real.arcsin (0.01 / Real.sqrt 0.0065) < ASSIST_CONE_ANGLE := by
  have hcone : ASSIST_CONE_ANGLE = Real.pi / 12 := by
    unfold ASSIST_CONE_ANGLE
    ring
  rw [hcone]
  have hd : (0.08 : ℝ) ≤ Real.sqrt 0.0065 := by
    rw [Real.le_sqrt (by norm_num) (by norm_num)]
    norm_num
  have hdpos : (0 : ℝ) < Real.sqrt 0.0065 := Real.sqrt_pos.mpr (by norm_num)
  have ht : (0.01 : ℝ) / Real.sqrt 0.0065 ≤ 0.125 := by
    rw [div_le_iff₀ hdpos]
    nlinarith
  have ht0 : (0 : ℝ) ≤ 0.01 / Real.sqrt 0.0065 := by positivity
  have hp1 : (0.25 : ℝ) < Real.pi / 12 := by linarith [Real.pi_gt_three]
  have hp2 : Real.pi / 12 < 0.2625 := by linarith [Real.pi_lt_d2]
  have hsin : (0.125 : ℝ) < Real.sin (Real.pi / 12) := by
    have hcube := Real.sin_gt_sub_cube (by linarith) (by linarith : Real.pi / 12 ≤ 1)
    have hx3 : (Real.pi / 12) ^ 3 < 0.2625 ^ 3 := by
      exact pow_lt_pow_left₀ hp2 (by linarith) (by norm_num)
    nlinarith
  have harcsin : Real.arcsin (0.01 / Real.sqrt 0.0065) <
      Real.arcsin (Real.sin (Real.pi / 12)) := by
    apply Real.strictMonoOn_arcsin
    · exact Set.mem_Icc.mpr ⟨by linarith, by linarith⟩
    · exact Set.mem_Icc.mpr
        ⟨by linarith [Real.neg_one_le_sin (Real.pi / 12)], Real.sin_le_one _⟩
    · linarith
  rwa [Real.arcsin_sin (by linarith [Real.pi_pos]) (by linarith [Real.pi_pos])]
    at harcsin

theorem assistCex_code_result :
    getAimAssistVector ColorType.RED 0 0 10 0 [assistCexTarget] = ⟨10, 0, false⟩ := by
  have hdist : targetDist 0 0 assistCexTarget ≤ 0.1 := by
    rw [assistCex_dist, Real.sqrt_le_iff]
    norm_num
  unfold getAimAssistVector
  rw [if_neg (by rw [assistCex_speed]; norm_num)]
  have hcol : assistCexTarget.color = ColorType.RED := rfl
  have hfold : [assistCexTarget].foldl
      (assistStep ColorType.RED 0 0 (atan2 0 10) (Real.sqrt ((10 : ℝ) * 10 + 0 * 0)))
      none = none := by
    rw [List.foldl_cons, List.foldl_nil]
    unfold assistStep
    rw [if_pos hcol, if_pos hdist]
  rw [hfold]

theorem assistCex_pv :
    perfectVelocity 0 0 10 assistCexTarget =
      (0.08 / Real.sqrt 0.0065 * 10, 0.01 / Real.sqrt 0.0065 * 10) := by
  unfold perfectVelocity targetDist assistCexTarget
  norm_num

theorem assistCex_blend_vy_pos :
    0 < (blendedAssistSpec 0 0 10 0 assistCexTarget).2 := by
  have hdpos : (0 : ℝ) < Real.sqrt 0.0065 := Real.sqrt_pos.mpr (by norm_num)
  simp only [blendedAssistSpec, assistCex_speed, assistCex_pv, ASSIST_STRENGTH]
  have hB : (0 : ℝ) < 0 + (0.01 / Real.sqrt 0.0065 * 10 - 0) * 0.3 := by
    have : (0 : ℝ) < 0.01 / Real.sqrt 0.0065 * 10 := by positivity
    linarith
  have hns : (0 : ℝ) <
      Real.sqrt ((10 + (0.08 / Real.sqrt 0.0065 * 10 - 10) * 0.3) *
          (10 + (0.08 / Real.sqrt 0.0065 * 10 - 10) * 0.3) +
        (0 + (0.01 / Real.sqrt 0.0065 * 10 - 0) * 0.3) *
          (0 + (0.01 / Real.sqrt 0.0065 * 10 - 0) * 0.3)) := by
    apply Real.sqrt_pos.mpr
    nlinarith [mul_self_nonneg (10 + (0.08 / Real.sqrt 0.0065 * 10 - 10) * 0.3), hB]
  exact mul_pos (div_pos hB hns) (by norm_num)

/-- C7: the claim states aim assist returns the raw vector exactly iff
the raw vector is degenerate or no matching-color target lies within
the 15-degree cone, and otherwise returns the blended speed-preserving
vector toward the best in-cone matching candidate.  Counterexample: a
RED target inside the cone of the raw aim direction but within 0.1
length units of the shot origin is skipped by the degeneracy guard
`dist <= 0.1`, so the code returns the raw vector `(10, 0)` unassisted,
while the claim demands the blended vector toward that sole candidate,
whose y-component is strictly positive. -/
theorem aim_assist_claim_counterexample :
    ¬ (Real.sqrt ((10 : ℝ) * 10 + 0 * 0) < 0.1) ∧
    assistCexTarget.color = ColorType.RED ∧
    targetAngleDiff 0 0 (atan2 0 10) assistCexTarget < ASSIST_CONE_ANGLE ∧
    getAimAssistVector ColorType.RED 0 0 10 0 [assistCexTarget] = ⟨10, 0, false⟩ ∧
    0 < (blendedAssistSpec 0 0 10 0 assistCexTarget).2 := by
  refine ⟨by rw [assistCex_speed]; norm_num, rfl, ?_, assistCex_code_result,
    assistCex_blend_vy_pos⟩
  rw [assistCex_angle]
  exact assistCex_in_cone

/-- The projectile-target proximity test of the combat loop:
`dist < target.radius + 8` (slight hit tolerance). -/
noncomputable def inHitRange (p : Projectile) (t : Target) : Prop :=
  Real.sqrt ((p.x - t.x) * (p.x - t.x) + (p.y - t.y) * (p.y - t.y)) < t.radius + 8

/-- Helper for `findHitIdx`: scan indices `n-1, n-2, ..., 0`. -/
noncomputable def findHitIdxAux (p : Projectile) (ts : List Target) : ℕ → Option ℕ
  | 0 => none
  | (i + 1) => if inHitRange p (ts.getD i default) then some i else findHitIdxAux p ts i

/-- The target index the inner combat loop resolves a projectile
against: the loop runs `for (i = targets.length - 1; i >= 0; i--)` and
breaks at the first (highest-index) target within hit range. -/
noncomputable def findHitIdx (p : Projectile) (ts : List Target) : Option ℕ :=
  findHitIdxAux p ts ts.length

/-- The streak multiplier of the destroy branch.  The source assigns
sequentially (`multiplier = 1; if (streak > 5) 1.5; if (> 10) 2;
if (> 20) 3`), so the highest satisfied threshold wins. -/
def streakMultiplier (streak : ℕ) : ℝ :=
  if streak > 20 then 3 else if streak > 10 then 2 else if streak > 5 then 1.5 else 1

/-- The random rotation speeds `(Math.random() - 0.5) * 8` of the two
children spawned by a SPLIT destruction, passed in explicitly. -/
structure SplitRoll where
  rotSpeed1 : ℝ
  rotSpeed2 : ℝ

/-- One child of a destroyed SPLIT target (`k = 0` or `k = 1`):
heading `±60°` off the parent's velocity heading, at
`max(4, parentSpeed * 1.5)`, same color, radius `* 0.6`, kind NORMAL. -/
noncomputable def splitChild (t : Target) (k : ℕ) (rotSpeed : ℝ) : Target :=
  let angleOffset := (if k = 0 then (1 : ℝ) else -1) * (Real.pi / 3)
  let baseAngle := atan2 t.vy t.vx
  let newAngle := baseAngle + angleOffset
  let speed := max 4 (Real.sqrt (t.vx * t.vx + t.vy * t.vy) * 1.5)
  { x := t.x + Real.cos newAngle * 20
    y := t.y + Real.sin newAngle * 20
    vx := Real.cos newAngle * speed
    vy := Real.sin newAngle * speed
    color := t.color
    radius := t.radius * 0.6
    rotation := 0
    rotationSpeed := rotSpeed
    type := TargetType.NORMAL
    shape := TargetShape.CIRCLE
    health := 1
    maxHealth := none
    colorShiftTimer := none
    initialY := none
    timeOffset := none
    summonTimer := none }

/-- Resolution of a projectile against the target at index `i` (the
body of `if (dist < target.radius + 8)` in the combat loop).  A color
match increments the streak and either damages (TOUGH/BOSS with
health > 1) or destroys the target, with the BOSS destruction
additionally adjusting level/boss/speed/interval state; SPLIT
destruction appends two children.  A color mismatch zeroes the streak,
enters the ENDING state, snapshots the floored score and schedules the
1000 ms session handoff. -/
noncomputable def resolveHit (diffS : DifficultySetting) (sr : SplitRoll)
    (p : Projectile) (i : ℕ) (s : SimState) : SimState :=
  let t := s.targets.getD i default
  if p.color = t.color then
    let streak1 := s.streak + 1
    let stats1 := { s.stats with highestStreak := max s.stats.highestStreak streak1 }
    if (t.type = TargetType.TOUGH ∨ t.type = TargetType.BOSS) ∧ t.health > 1 then
      { s with
        streak := streak1
        stats := stats1
        shakeTimer := 150
        targets := s.targets.set i { t with health := t.health - 1 }
        score := s.score +
          (if t.type = TargetType.BOSS then 10 else 5) * diffS.scoreMultiplier
        scoreSinceLastBoss := s.scoreSinceLastBoss + 10 }
    else
      let mult := streakMultiplier streak1
      let baseScore := TARGET_SCORES t.type
      let score2 := s.score + baseScore * diffS.scoreMultiplier * mult
      let sslb2 :=
        if t.type = TargetType.BOSS then s.scoreSinceLastBoss + 50
        else s.scoreSinceLastBoss + baseScore * mult
      let stats2 :=
        { stats1 with
          targetsHit := stats1.targetsHit + 1
          toughKills :=
            if t.type = TargetType.TOUGH then stats1.toughKills + 1 else stats1.toughKills
          splitKills :=
            if t.type = TargetType.SPLIT then stats1.splitKills + 1 else stats1.splitKills
          stationaryKills :=
            if t.type = TargetType.STATIONARY then stats1.stationaryKills + 1
            else stats1.stationaryKills
          colorShiftKills :=
            if t.type = TargetType.COLOR_SHIFT then stats1.colorShiftKills + 1
            else stats1.colorShiftKills
          sineWaveKills :=
            if t.type = TargetType.SINE_WAVE then stats1.sineWaveKills + 1
            else stats1.sineWaveKills }
      let targets2 := s.targets.eraseIdx i
      let targets3 :=
        if t.type = TargetType.SPLIT then
          targets2 ++ [splitChild t 0 sr.rotSpeed1, splitChild t 1 sr.rotSpeed2]
        else targets2
      if t.type = TargetType.BOSS then
        { s with
          streak := streak1
          shakeTimer := 150
          score := score2
          level := s.level + 1
          bossActive := false
          scoreSinceLastBoss := 0
          speedMultiplier := s.speedMultiplier + 0.2
          baseSpawnInterval := max 300 (s.baseSpawnInterval - 50)
          stats := { stats2 with
            bossKills := stats2.bossKills + 1
            highestLevel := max stats2.highestLevel (s.level + 1) }
          targets := targets3 }
      else
        { s with
          streak := streak1
          shakeTimer := 150
          score := score2
          scoreSinceLastBoss := sslb2
          stats := stats2
          targets := targets3 }
  else
    { s with
      streak := 0
      isEnding := true
      shakeTimer := 500
      stats := { s.stats with
        targetsMissed := s.stats.targetsMissed + 1
        totalScore := ⌊s.score⌋ }
      handoffDelays := s.handoffDelays ++ [1000] }

/-- A projectile has left the arena (with 50-unit margin):
`proj.x < -50 || proj.x > width + 50 || proj.y < -50 || proj.y > height + 50`. -/
def projOutOfBounds (width height : ℝ) (p : Projectile) : Prop :=
  p.x < -50 ∨ p.x > width + 50 ∨ p.y < -50 ∨ p.y > height + 50

/-- Processing of one pool slot in the per-tick projectile loop:
inactive slots are skipped; an active projectile integrates its
position, resolves against the first in-range target (deactivating
itself), or deactivates on leaving the arena.  The processed slot is
appended to the output pool to preserve pool order. -/
noncomputable def processProjectile (diffS : DifficultySetting) (sr : SplitRoll)
    (width height tf : ℝ) (acc : SimState × List Projectile) (p : Projectile) :
    SimState × List Projectile :=
  if p.active = false then (acc.1, acc.2 ++ [p])
  else
    let p1 : Projectile := { p with x := p.x + p.vx * tf, y := p.y + p.vy * tf }
    match findHitIdx p1 acc.1.targets with
    | some i => (resolveHit diffS sr p1 i acc.1, acc.2 ++ [{ p1 with active := false }])
    | none =>
        if projOutOfBounds width height p1
        then (acc.1, acc.2 ++ [{ p1 with active := false }])
        else (acc.1, acc.2 ++ [p1])

/-- The whole per-tick projectile loop (source step 5), over the pool
in order. -/
noncomputable def processProjectiles (diffS : DifficultySetting) (sr : SplitRoll)
    (width height tf : ℝ) (s : SimState) (pool : List Projectile) :
    SimState × List Projectile :=
  pool.foldl (processProjectile diffS sr width height tf) (s, [])

/-- The handoffs the driving environment will deliver: each scheduled
`setTimeout(() => onGameOver(Math.floor(state.score), sessionStatsRef.current), 1000)`
callback reads the live refs when it fires; once `isEnding` is set the
animate loop mutates neither score nor stats, so every scheduled
handoff carries the floored end-of-tick score and the final session
stats. -/
noncomputable def emittedHandoffs (s : SimState) : List (ℝ × ℤ × GameStats) :=
  s.handoffDelays.map fun d => (d, ⌊s.score⌋, s.stats)

/-- The velocity the `shoot` handler gives a new projectile: `null` when
the tap is inside the control bar or degenerately close to the shooter,
otherwise the aim-assisted unit direction scaled by `PROJECTILE_SPEED`. -/
noncomputable def shootVector (cc : ColorType) (width height targetX targetY : ℝ)
    (targets : List Target) : Option (ℝ × ℝ) :=
  if targetY > height - GAME_CONFIG.CONTROLS_HEIGHT then none
  else
    let shooterX := width / 2
    let shooterY := height - GAME_CONFIG.CONTROLS_HEIGHT - 20
    let dx := targetX - shooterX
    let dy := targetY - shooterY
    let distance := Real.sqrt (dx * dx + dy * dy)
    if distance < 1 then none
    else
      let rawVx := dx / distance * GAME_CONFIG.PROJECTILE_SPEED
      let rawVy := dy / distance * GAME_CONFIG.PROJECTILE_SPEED
      let r := getAimAssistVector cc shooterX shooterY rawVx rawVy targets
      some (r.vx, r.vy)

/-- The C1 scenario's single STATIONARY RED target at (200, 300), radius 32. -/
noncomputable def c1Target : Target :=
  ⟨200, 300, 0, 0, ColorType.RED, 32, 0, 0, TargetType.STATIONARY, TargetShape.CIRCLE, 1,
    none, none, none, none, none⟩

/-- The C1 scenario's projectile as `shoot` creates it: at the shooter
position (200, 680) with the aim-assisted velocity (0, -10). -/
noncomputable def c1Proj : Projectile :=
  ⟨200, 680, 0, -10, ColorType.RED, 12, true⟩

/-- One C1-scenario tick: the projectile loop at `deltaTime = 16.667`
(so `timeFactor = 1`) in a 400x800 arena on MEDIUM difficulty. -/
noncomputable def c1Tick (sr : SplitRoll) (a : SimState × List Projectile) :
    SimState × List Projectile :=
  processProjectiles (DIFFICULTY_SETTINGS Difficulty.MEDIUM) sr 400 800
    (timeFactor 16.667) a.1 a.2

theorem c1_timeFactor : timeFactor 16.667 = 1 := by
  unfold timeFactor
  rw [show (16.667 : ℝ) / 16.667 = 1 by norm_num]
  rw [min_eq_left (by norm_num)]

theorem c1_dist : targetDist 200 680 c1Target = 380 := by
  have h : targetDist 200 680 c1Target = Real.sqrt 144400 := by
    unfold targetDist
    simp only [c1Target]
    norm_num
  rw [h, show (144400 : ℝ) = 380 ^ 2 by norm_num, Real.sqrt_sq (by norm_num)]

theorem c1_arg_eq : Complex.arg ⟨0, -380⟩ = Complex.arg ⟨0, -10⟩ := by
  have h : (⟨0, -380⟩ : ℂ) = ((38 : ℝ) : ℂ) * ⟨0, -10⟩ := by
    apply Complex.ext <;>
      norm_num [Complex.mul_re, Complex.mul_im, Complex.ofReal_re, Complex.ofReal_im]
  rw [h, Complex.arg_real_mul _ (by norm_num : (0 : ℝ) < 38)]

theorem c1_assist_speed : Real.sqrt ((0 : ℝ) * 0 + -10 * -10) = 10 := by
  rw [show (0 : ℝ) * 0 + -10 * -10 = 10 ^ 2 by norm_num, Real.sqrt_sq (by norm_num)]

theorem c1_angleDiff : targetAngleDiff 200 680 (atan2 (-10) 0) c1Target = 0 := by
  rw [targetAngleDiff_eval]
  have hx : c1Target.x - 200 = (0 : ℝ) := by simp [c1Target]
  have hy : c1Target.y - 680 = (-380 : ℝ) := by
    simp only [c1Target]
    norm_num
  rw [hx, hy]
  unfold atan2
  rw [c1_arg_eq, sub_self, abs_zero]
  rw [if_neg (not_lt.mpr (le_of_lt Real.pi_pos))]

theorem c1_pv : perfectVelocity 200 680 10 c1Target = (0, -10) := by
  unfold perfectVelocity
  rw [c1_dist]
  simp only [c1Target]
  norm_num

theorem c1_candidate : isAssistCandidate ColorType.RED 200 680 (atan2 (-10) 0) c1Target := by
  refine ⟨rfl, ?_, ?_⟩
  · rw [c1_dist]
    norm_num
  · rw [c1_angleDiff]
    unfold ASSIST_CONE_ANGLE
    positivity

theorem c1_assist :
    getAimAssistVector ColorType.RED 200 680 0 (-10) [c1Target] = ⟨0, -10, true⟩ := by
  unfold getAimAssistVector
  rw [if_neg (by rw [c1_assist_speed]; norm_num)]
  have hfold : [c1Target].foldl (assistStep ColorType.RED 200 680 (atan2 (-10) 0)
      (Real.sqrt ((0 : ℝ) * 0 + -10 * -10))) none =
      some (targetAngleDiff 200 680 (atan2 (-10) 0) c1Target,
        perfectVelocity 200 680 (Real.sqrt ((0 : ℝ) * 0 + -10 * -10)) c1Target) := by
    rw [List.foldl_cons, List.foldl_nil, assistStep_candidate_none _ c1_candidate]
  rw [hfold, c1_assist_speed, c1_pv]
  simp only [ASSIST_STRENGTH]
  norm_num
  rw [show ((100 : ℝ)) = 10 ^ 2 by norm_num, Real.sqrt_sq (by norm_num)]
  norm_num

theorem c1_shoot :
    shootVector ColorType.RED 400 800 200 300 [c1Target] = some (0, -10) := by
  unfold shootVector GAME_CONFIG.CONTROLS_HEIGHT GAME_CONFIG.PROJECTILE_SPEED
  rw [if_neg (by norm_num)]
  have hdist : Real.sqrt (((200 : ℝ) - 400 / 2) * ((200 : ℝ) - 400 / 2) +
      ((300 : ℝ) - (800 - 100 - 20)) * ((300 : ℝ) - (800 - 100 - 20))) = 380 := by
    rw [show ((200 : ℝ) - 400 / 2) * ((200 : ℝ) - 400 / 2) +
        ((300 : ℝ) - (800 - 100 - 20)) * ((300 : ℝ) - (800 - 100 - 20)) = 380 ^ 2 by norm_num,
      Real.sqrt_sq (by norm_num)]
  simp only []
  rw [hdist]
  rw [if_neg (by norm_num)]
  norm_num
  rw [c1_assist]
  exact ⟨rfl, rfl⟩

theorem processProjectiles_single (diffS : DifficultySetting) (sr : SplitRoll)
    (W H tf : ℝ) (s : SimState) (p : Projectile) :
    processProjectiles diffS sr W H tf s [p] =
      processProjectile diffS sr W H tf (s, []) p := by
  unfold processProjectiles
  rw [List.foldl_cons, List.foldl_nil]

theorem c1_flight_step (sr : SplitRoll) (s : SimState) (hT : s.targets = [c1Target])
    (y : ℝ) (hy : 350 ≤ y) (hy2 : y ≤ 680) :
    processProjectiles (DIFFICULTY_SETTINGS Difficulty.MEDIUM) sr 400 800 1 s
        [⟨200, y, 0, -10, ColorType.RED, 12, true⟩] =
      (s, [⟨200, y - 10, 0, -10, ColorType.RED, 12, true⟩]) := by
  rw [processProjectiles_single]
  unfold processProjectile
  rw [if_neg (by simp)]
  simp only []
  have hp1 : (⟨200 + 0 * 1, y + -10 * 1, 0, -10, ColorType.RED, 12, true⟩ : Projectile) =
      ⟨200, y - 10, 0, -10, ColorType.RED, 12, true⟩ := by
    simp only [Projectile.mk.injEq]
    norm_num
    ring
  rw [hp1]
  have hnr : ¬ inHitRange (⟨200, y - 10, 0, -10, ColorType.RED, 12, true⟩ : Projectile)
      c1Target := by
    unfold inHitRange
    simp only [c1Target]
    have h : Real.sqrt (((200 : ℝ) - 200) * (200 - 200) +
        (y - 10 - 300) * (y - 10 - 300)) = y - 310 := by
      rw [show ((200 : ℝ) - 200) * (200 - 200) + (y - 10 - 300) * (y - 10 - 300) =
        (y - 310) ^ 2 by ring, Real.sqrt_sq (by linarith)]
    rw [h]
    norm_num
    linarith
  have hfind : findHitIdx (⟨200, y - 10, 0, -10, ColorType.RED, 12, true⟩ : Projectile)
      s.targets = none := by
    rw [hT]
    show (if inHitRange (⟨200, y - 10, 0, -10, ColorType.RED, 12, true⟩ : Projectile)
        ([c1Target].getD 0 default) then some 0
      else findHitIdxAux (⟨200, y - 10, 0, -10, ColorType.RED, 12, true⟩ : Projectile)
        [c1Target] 0) = none
    have hg : ([c1Target].getD 0 default) = c1Target := rfl
    rw [hg, if_neg hnr]
    rfl
  rw [hfind]
  simp only []
  rw [if_neg]
  · rw [List.nil_append]
  · unfold projOutOfBounds
    simp only []
    push_neg
    refine ⟨by norm_num, by norm_num, by linarith, by linarith⟩

theorem c1_flight (sr : SplitRoll) (s : SimState) (hT : s.targets = [c1Target]) :
    ∀ k : ℕ, k ≤ 34 →
      (c1Tick sr)^[k] (s, [c1Proj]) =
        (s, [⟨200, 680 - 10 * k, 0, -10, ColorType.RED, 12, true⟩]) := by
  intro k
  induction k with
  | zero =>
    intro _
    simp only [Function.iterate_zero, id_eq, Nat.cast_zero]
    unfold c1Proj
    norm_num
  | succ n ih =>
    intro hk
    rw [Function.iterate_succ_apply', ih (by omega)]
    unfold c1Tick
    simp only []
    rw [c1_timeFactor]
    have hn : ((n : ℝ)) ≤ 33 := by
      have : n ≤ 33 := by omega
      exact_mod_cast this
    rw [c1_flight_step sr s hT (680 - 10 * n) (by linarith) (by
      have : (0 : ℝ) ≤ (n : ℝ) := Nat.cast_nonneg n
      linarith)]
    have he : (680 : ℝ) - 10 * n - 10 = 680 - 10 * (n + 1 : ℕ) := by
      push_cast
      ring
    rw [he]

theorem c1_scenario_eval (sr : SplitRoll) (s : SimState)
    (hT : s.targets = [c1Target]) (hstreak : s.streak = 0) :
    ((c1Tick sr)^[35] (s, [c1Proj])).1 =
      { s with
        score := s.score + 15 * 1.5 * 1
        scoreSinceLastBoss := s.scoreSinceLastBoss + 15 * 1
        streak := 1
        shakeTimer := 150
        stats := { s.stats with
          targetsHit := s.stats.targetsHit + 1
          stationaryKills := s.stats.stationaryKills + 1
          highestStreak := max s.stats.highestStreak 1 }
        targets := [] } := by
  have h34 := c1_flight sr s hT 34 (by norm_num)
  rw [show (35 : ℕ) = 34 + 1 from rfl, Function.iterate_succ_apply', h34]
  unfold c1Tick
  simp only []
  rw [c1_timeFactor]
  rw [show ((680 : ℝ) - 10 * (34 : ℕ)) = 340 by norm_num]
  rw [processProjectiles_single]
  unfold processProjectile
  rw [if_neg (by simp)]
  simp only []
  have hp1 : (⟨200 + 0 * 1, 340 + -10 * 1, 0, -10, ColorType.RED, 12, true⟩ : Projectile) =
      ⟨200, 330, 0, -10, ColorType.RED, 12, true⟩ := by
    simp only [Projectile.mk.injEq]
    norm_num
  rw [hp1]
  have hhr : inHitRange (⟨200, 330, 0, -10, ColorType.RED, 12, true⟩ : Projectile)
      c1Target := by
    unfold inHitRange
    simp only [c1Target]
    rw [show ((200 : ℝ) - 200) * (200 - 200) + (330 - 300) * (330 - 300) = 30 ^ 2
      by norm_num, Real.sqrt_sq (by norm_num)]
    norm_num
  have hfind : findHitIdx (⟨200, 330, 0, -10, ColorType.RED, 12, true⟩ : Projectile)
      s.targets = some 0 := by
    rw [hT]
    show (if inHitRange (⟨200, 330, 0, -10, ColorType.RED, 12, true⟩ : Projectile)
        ([c1Target].getD 0 default) then some 0
      else findHitIdxAux (⟨200, 330, 0, -10, ColorType.RED, 12, true⟩ : Projectile)
        [c1Target] 0) = some 0
    have hg : ([c1Target].getD 0 default) = c1Target := rfl
    rw [hg, if_pos hhr]
  rw [hfind]
  simp only []
  unfold resolveHit
  rw [hT]
  have hg : ([c1Target].getD 0 default) = c1Target := rfl
  rw [hg]
  have hcol : (⟨200, 330, 0, -10, ColorType.RED, 12, true⟩ : Projectile).color =
      c1Target.color := rfl
  rw [if_pos hcol, if_neg (by simp [c1Target])]
  rw [hstreak]
  have hsm : streakMultiplier (0 + 1) = 1 := by
    unfold streakMultiplier
    norm_num
  rw [hsm]
  have hty : TARGET_SCORES c1Target.type = 15 := rfl
  rw [hty]
  rw [if_neg (by simp [c1Target] : ¬ c1Target.type = TargetType.BOSS)]
  rw [if_neg (by simp [c1Target] : ¬ c1Target.type = TargetType.SPLIT)]
  rw [if_neg (by simp [c1Target] : ¬ c1Target.type = TargetType.BOSS)]
  simp only [c1Target, List.eraseIdx]
  norm_num [DIFFICULTY_SETTINGS]
  exact ⟨by simp, by simp, by simp, by simp⟩

/-- Zeroed session stats for concrete scenario states. -/
noncomputable def c1Stats0 : GameStats :=
  ⟨0, 0, 1, 0, 0, 0, 0, 0, 0, 0, 0, 0, 0, 1, 0⟩

/-- A concrete C1 scenario session state: one STATIONARY RED target,
RED selected, score 0, streak 0, level 1, MEDIUM base spawn interval. -/
noncomputable def c1State : SimState :=
  ⟨[c1Target], ColorType.RED, 0, 1, 0, false, 0, 1, 1600, 0, false, 0, c1Stats0, []⟩

/-- C1 (amended): in a 400x800 arena with control-bar height 100 on
MEDIUM difficulty, firing a RED projectile from (200, 680) toward the
single STATIONARY RED target at (200, 300) destroys the target, sets
streak to 1, leaves the level unchanged, and increases the score by
exactly `15 * 1.5 * 1 = 22.5`: the STATIONARY base score is 15 (not 10
as the claim computes), times MEDIUM's 1.5, times streak multiplier 1. -/
theorem c1_scenario_stationary_hit (sr : SplitRoll) (s : SimState)
    (hT : s.targets = [c1Target]) (hstreak : s.streak = 0) :
    shootVector ColorType.RED 400 800 200 300 s.targets = some (c1Proj.vx, c1Proj.vy) ∧
    ((c1Tick sr)^[35] (s, [c1Proj])).1.targets = [] ∧
    ((c1Tick sr)^[35] (s, [c1Proj])).1.score = s.score + 15 * 1.5 * 1 ∧
    ((c1Tick sr)^[35] (s, [c1Proj])).1.streak = 1 ∧
    ((c1Tick sr)^[35] (s, [c1Proj])).1.level = s.level := by
  have h := c1_scenario_eval sr s hT hstreak
  refine ⟨?_, ?_, ?_, ?_, ?_⟩
  · rw [hT, c1_shoot]
    rfl
  · rw [h]
  · rw [h]
  · rw [h]
  · rw [h]

/-- Witness for the amended C1 theorem at the concrete scenario state. -/
theorem c1_scenario_stationary_hit_witness :
    shootVector ColorType.RED 400 800 200 300 c1State.targets =
      some (c1Proj.vx, c1Proj.vy) ∧
    ((c1Tick ⟨0, 0⟩)^[35] (c1State, [c1Proj])).1.targets = [] ∧
    ((c1Tick ⟨0, 0⟩)^[35] (c1State, [c1Proj])).1.score = c1State.score + 15 * 1.5 * 1 ∧
    ((c1Tick ⟨0, 0⟩)^[35] (c1State, [c1Proj])).1.streak = 1 ∧
    ((c1Tick ⟨0, 0⟩)^[35] (c1State, [c1Proj])).1.level = c1State.level :=
  c1_scenario_stationary_hit ⟨0, 0⟩ c1State rfl rfl

/-- C1: the claim computes the scenario's score increase as
`10 * 1.5 * 1 = 15`, using the NORMAL base score 10.  False: the code
awards `TARGET_SCORES[STATIONARY] = 15` as base, so starting from score
0 the scenario ends at score 22.5, not 15. -/
theorem c1_claim_counterexample :
    ((c1Tick ⟨0, 0⟩)^[35] (c1State, [c1Proj])).1.score = 22.5 ∧
    (22.5 : ℝ) ≠ 10 * 1.5 * 1 + 0 := by
  have h := c1_scenario_eval ⟨0, 0⟩ c1State rfl rfl
  constructor
  · rw [h]
    show c1State.score + 15 * 1.5 * 1 = 22.5
    norm_num [c1State]
  · norm_num

/-- C4 (amended): when the per-tick projectile loop resolves an active
projectile against a target of a different color (the hit scan picks
the highest-index in-range target), the session deterministically
resets streak to 0, enters the ENDING state, increments the
targetsMissed stat by exactly 1, snapshots the floored score into the
session stats, and schedules one 1000 ms session handoff; if it is the
only projectile resolved this tick and no handoff was already
scheduled, exactly one handoff is emitted, carrying the floored score
and the accumulated session stats.  (Two projectiles mismatching in the
same tick schedule two handoffs, which the original claim excludes.) -/
theorem mismatch_single_projectile_ending (diffS : DifficultySetting) (sr : SplitRoll)
    (W H tf : ℝ) (s : SimState) (p : Projectile) (i : ℕ)
    (hactive : p.active = true)
    (hfind : findHitIdx { p with x := p.x + p.vx * tf, y := p.y + p.vy * tf }
      s.targets = some i)
    (hmis : ¬ p.color = (s.targets.getD i default).color)
    (hdelays : s.handoffDelays = []) :
    (processProjectiles diffS sr W H tf s [p]).1.streak = 0 ∧
    (processProjectiles diffS sr W H tf s [p]).1.isEnding = true ∧
    (processProjectiles diffS sr W H tf s [p]).1.stats.targetsMissed =
      s.stats.targetsMissed + 1 ∧
    (processProjectiles diffS sr W H tf s [p]).1.stats.totalScore = ⌊s.score⌋ ∧
    (processProjectiles diffS sr W H tf s [p]).1.score = s.score ∧
    emittedHandoffs (processProjectiles diffS sr W H tf s [p]).1 =
      [(1000, ⌊(processProjectiles diffS sr W H tf s [p]).1.score⌋,
        (processProjectiles diffS sr W H tf s [p]).1.stats)] := by
  rw [processProjectiles_single]
  unfold processProjectile
  rw [if_neg (by rw [hactive]; simp)]
  simp only []
  rw [hfind]
  simp only []
  unfold resolveHit
  have hcol : ({ p with x := p.x + p.vx * tf, y := p.y + p.vy * tf } :
      Projectile).color = p.color := rfl
  rw [hcol, if_neg hmis]
  refine ⟨rfl, rfl, rfl, rfl, rfl, ?_⟩
  unfold emittedHandoffs
  simp only [hdelays, List.nil_append, List.map]

/-- A BLUE target at (200, 300) used in the mismatch scenarios. -/
noncomputable def c4Target : Target :=
  ⟨200, 300, 0, 0, ColorType.BLUE, 32, 0, 0, TargetType.NORMAL, TargetShape.CIRCLE, 1,
    none, none, none, none, none⟩

/-- A second BLUE target at (300, 300) used in the mismatch counterexample. -/
noncomputable def c4TargetB : Target :=
  ⟨300, 300, 0, 0, ColorType.BLUE, 32, 0, 0, TargetType.NORMAL, TargetShape.CIRCLE, 1,
    none, none, none, none, none⟩

/-- A RED projectile one motion step above (200, 300). -/
noncomputable def c4Proj : Projectile :=
  ⟨200, 310, 0, -10, ColorType.RED, 12, true⟩

/-- A RED projectile one motion step above (300, 300). -/
noncomputable def c4ProjB : Projectile :=
  ⟨300, 310, 0, -10, ColorType.RED, 12, true⟩

/-- A session state with the single BLUE target and no scheduled handoffs. -/
noncomputable def c4State : SimState :=
  ⟨[c4Target], ColorType.RED, 0, 1, 0, false, 3, 1, 1600, 0, false, 0, c1Stats0, []⟩

theorem c4_moved_proj :
    ({ c4Proj with x := c4Proj.x + c4Proj.vx * 1, y := c4Proj.y + c4Proj.vy * 1 } :
      Projectile) = ⟨200, 300, 0, -10, ColorType.RED, 12, true⟩ := by
  simp only [c4Proj, Projectile.mk.injEq]
  norm_num

theorem c4_hit_range :
    inHitRange (⟨200, 300, 0, -10, ColorType.RED, 12, true⟩ : Projectile) c4Target := by
  unfold inHitRange
  simp only [c4Target]
  rw [show ((200 : ℝ) - 200) * (200 - 200) + (300 - 300) * (300 - 300) = 0 by norm_num,
    Real.sqrt_zero]
  norm_num

theorem c4_find :
    findHitIdx ({ c4Proj with x := c4Proj.x + c4Proj.vx * 1, y := c4Proj.y + c4Proj.vy * 1 } : Projectile) c4State.targets = some 0 := by
  rw [c4_moved_proj]
  show (if inHitRange (⟨200, 300, 0, -10, ColorType.RED, 12, true⟩ : Projectile)
      ([c4Target].getD 0 default) then some 0
    else findHitIdxAux (⟨200, 300, 0, -10, ColorType.RED, 12, true⟩ : Projectile)
      [c4Target] 0) = some 0
  have hg : ([c4Target].getD 0 default) = c4Target := rfl
  rw [hg, if_pos c4_hit_range]

/-- Witness for the amended C4 theorem: a RED projectile resolved
against the single BLUE target. -/
theorem mismatch_single_projectile_ending_witness :
    (processProjectiles (DIFFICULTY_SETTINGS Difficulty.MEDIUM) ⟨0, 0⟩ 400 800 1
        c4State [c4Proj]).1.streak = 0 ∧
    (processProjectiles (DIFFICULTY_SETTINGS Difficulty.MEDIUM) ⟨0, 0⟩ 400 800 1
        c4State [c4Proj]).1.isEnding = true ∧
    (processProjectiles (DIFFICULTY_SETTINGS Difficulty.MEDIUM) ⟨0, 0⟩ 400 800 1
        c4State [c4Proj]).1.stats.targetsMissed = c4State.stats.targetsMissed + 1 ∧
    (processProjectiles (DIFFICULTY_SETTINGS Difficulty.MEDIUM) ⟨0, 0⟩ 400 800 1
        c4State [c4Proj]).1.stats.totalScore = ⌊c4State.score⌋ ∧
    (processProjectiles (DIFFICULTY_SETTINGS Difficulty.MEDIUM) ⟨0, 0⟩ 400 800 1
        c4State [c4Proj]).1.score = c4State.score ∧
    emittedHandoffs (processProjectiles (DIFFICULTY_SETTINGS Difficulty.MEDIUM) ⟨0, 0⟩
        400 800 1 c4State [c4Proj]).1 =
      [(1000, ⌊(processProjectiles (DIFFICULTY_SETTINGS Difficulty.MEDIUM) ⟨0, 0⟩ 400 800 1
          c4State [c4Proj]).1.score⌋,
        (processProjectiles (DIFFICULTY_SETTINGS Difficulty.MEDIUM) ⟨0, 0⟩ 400 800 1
          c4State [c4Proj]).1.stats)] :=
  mismatch_single_projectile_ending (DIFFICULTY_SETTINGS Difficulty.MEDIUM) ⟨0, 0⟩
    400 800 1 c4State c4Proj 0 rfl c4_find (by simp [c4State, c4Proj, c4Target]) rfl

/-- Two BLUE targets and no scheduled handoffs: the start state of the
two-projectile mismatch counterexample. -/
noncomputable def c4CexState : SimState :=
  ⟨[c4Target, c4TargetB], ColorType.RED, 0, 1, 0, false, 3, 1, 1600, 0, false, 0,
    c1Stats0, []⟩

/-- The session state after the first of the two mismatching
projectiles has been resolved. -/
noncomputable def c4Mid : SimState :=
  resolveHit (DIFFICULTY_SETTINGS Difficulty.MEDIUM) ⟨0, 0⟩
    ⟨200, 300, 0, -10, ColorType.RED, 12, true⟩ 0 c4CexState

theorem c4Mid_eval :
    c4Mid = { c4CexState with
      streak := 0
      isEnding := true
      shakeTimer := 500
      stats := { c4CexState.stats with
        targetsMissed := c4CexState.stats.targetsMissed + 1
        totalScore := ⌊c4CexState.score⌋ }
      handoffDelays := c4CexState.handoffDelays ++ [1000] } := by
  unfold c4Mid resolveHit
  rw [if_neg (show ¬ (⟨200, 300, 0, -10, ColorType.RED, 12, true⟩ : Projectile).color =
    (c4CexState.targets.getD 0 default).color by simp [c4CexState, c4Target])]

theorem c4Mid_targets : c4Mid.targets = [c4Target, c4TargetB] := by
  rw [c4Mid_eval]
  rfl

theorem c4Mid_missed : c4Mid.stats.targetsMissed = 1 := by
  rw [c4Mid_eval]
  show c4CexState.stats.targetsMissed + 1 = 1
  norm_num [c4CexState, c1Stats0]

theorem c4Mid_delays : c4Mid.handoffDelays = [1000] := by
  rw [c4Mid_eval]
  show c4CexState.handoffDelays ++ [1000] = [1000]
  simp [c4CexState]

theorem c4_moved_projB :
    ({ c4ProjB with x := c4ProjB.x + c4ProjB.vx * 1, y := c4ProjB.y + c4ProjB.vy * 1 } : Projectile) = ⟨300, 300, 0, -10, ColorType.RED, 12, true⟩ := by
  simp only [c4ProjB, Projectile.mk.injEq]
  norm_num

theorem c4_findA :
    findHitIdx (⟨200, 300, 0, -10, ColorType.RED, 12, true⟩ : Projectile)
      [c4Target, c4TargetB] = some 0 := by
  show (if inHitRange (⟨200, 300, 0, -10, ColorType.RED, 12, true⟩ : Projectile)
      ([c4Target, c4TargetB].getD 1 default) then some 1
    else findHitIdxAux (⟨200, 300, 0, -10, ColorType.RED, 12, true⟩ : Projectile)
      [c4Target, c4TargetB] 1) = some 0
  have hg1 : ([c4Target, c4TargetB].getD 1 default) = c4TargetB := rfl
  rw [hg1, if_neg]
  · show (if inHitRange (⟨200, 300, 0, -10, ColorType.RED, 12, true⟩ : Projectile)
        ([c4Target, c4TargetB].getD 0 default) then some 0
      else findHitIdxAux (⟨200, 300, 0, -10, ColorType.RED, 12, true⟩ : Projectile)
        [c4Target, c4TargetB] 0) = some 0
    have hg0 : ([c4Target, c4TargetB].getD 0 default) = c4Target := rfl
    rw [hg0, if_pos c4_hit_range]
  · unfold inHitRange
    simp only [c4TargetB]
    rw [show ((200 : ℝ) - 300) * (200 - 300) + (300 - 300) * (300 - 300) = 100 ^ 2
      by norm_num, Real.sqrt_sq (by norm_num)]
    norm_num

theorem c4_findB :
    findHitIdx (⟨300, 300, 0, -10, ColorType.RED, 12, true⟩ : Projectile)
      [c4Target, c4TargetB] = some 1 := by
  show (if inHitRange (⟨300, 300, 0, -10, ColorType.RED, 12, true⟩ : Projectile)
      ([c4Target, c4TargetB].getD 1 default) then some 1
    else findHitIdxAux (⟨300, 300, 0, -10, ColorType.RED, 12, true⟩ : Projectile)
      [c4Target, c4TargetB] 1) = some 1
  have hg1 : ([c4Target, c4TargetB].getD 1 default) = c4TargetB := rfl
  rw [hg1, if_pos]
  unfold inHitRange
  simp only [c4TargetB]
  rw [show ((300 : ℝ) - 300) * (300 - 300) + (300 - 300) * (300 - 300) = 0 by norm_num,
    Real.sqrt_zero]
  norm_num

theorem c4_two_eval :
    (processProjectiles (DIFFICULTY_SETTINGS Difficulty.MEDIUM) ⟨0, 0⟩ 400 800 1
      c4CexState [c4Proj, c4ProjB]).1 =
    resolveHit (DIFFICULTY_SETTINGS Difficulty.MEDIUM) ⟨0, 0⟩
      ⟨300, 300, 0, -10, ColorType.RED, 12, true⟩ 1 c4Mid := by
  unfold processProjectiles
  rw [List.foldl_cons]
  have hstep1 : processProjectile (DIFFICULTY_SETTINGS Difficulty.MEDIUM) ⟨0, 0⟩
      400 800 1 (c4CexState, []) c4Proj =
      (c4Mid, [⟨200, 300, 0, -10, ColorType.RED, 12, false⟩]) := by
    unfold processProjectile
    rw [if_neg (by simp [c4Proj])]
    simp only []
    rw [c4_moved_proj]
    rw [show findHitIdx (⟨200, 300, 0, -10, ColorType.RED, 12, true⟩ : Projectile)
      c4CexState.targets = some 0 from by
        rw [show c4CexState.targets = [c4Target, c4TargetB] from rfl]; exact c4_findA]
    simp only []
    unfold c4Mid
    rw [List.nil_append]
    norm_num [c4Proj, Prod.mk.injEq, Projectile.mk.injEq, List.cons.injEq]
  rw [hstep1, List.foldl_cons, List.foldl_nil]
  unfold processProjectile
  rw [if_neg (by simp [c4ProjB])]
  simp only []
  rw [c4_moved_projB]
  rw [show findHitIdx (⟨300, 300, 0, -10, ColorType.RED, 12, true⟩ : Projectile)
    c4Mid.targets = some 1 from by rw [c4Mid_targets]; exact c4_findB]

/-- C4: the claim asserts that a mismatch hit leads to exactly one
session handoff with `targetsMissed` incremented by exactly 1 relative
to session start.  Counterexample: the projectile loop has no
`isEnding` guard, so when two in-flight projectiles each reach a
wrong-colored target in the same tick, the mismatch branch runs twice:
`targetsMissed` ends at 2 and two 1000 ms handoffs are scheduled
(`onGameOver` fires twice). -/
theorem c4_claim_counterexample :
    c4CexState.stats.targetsMissed = 0 ∧
    (processProjectiles (DIFFICULTY_SETTINGS Difficulty.MEDIUM) ⟨0, 0⟩ 400 800 1
      c4CexState [c4Proj, c4ProjB]).1.stats.targetsMissed = 2 ∧
    (processProjectiles (DIFFICULTY_SETTINGS Difficulty.MEDIUM) ⟨0, 0⟩ 400 800 1
      c4CexState [c4Proj, c4ProjB]).1.handoffDelays = [1000, 1000] := by
  have hmis2 : ¬ (⟨300, 300, 0, -10, ColorType.RED, 12, true⟩ : Projectile).color =
      (c4Mid.targets.getD 1 default).color := by
    rw [c4Mid_targets]
    simp [c4TargetB]
  refine ⟨rfl, ?_, ?_⟩
  · rw [c4_two_eval]
    unfold resolveHit
    rw [if_neg hmis2]
    show c4Mid.stats.targetsMissed + 1 = 2
    rw [c4Mid_missed]
  · rw [c4_two_eval]
    unfold resolveHit
    rw [if_neg hmis2]
    show c4Mid.handoffDelays ++ [1000] = [1000, 1000]
    rw [c4Mid_delays]
    rfl

theorem splitChild_speed (t : Target) (k : ℕ) (rs : ℝ) :
    Real.sqrt ((splitChild t k rs).vx * (splitChild t k rs).vx +
      (splitChild t k rs).vy * (splitChild t k rs).vy) =
      max 4 (Real.sqrt (t.vx * t.vx + t.vy * t.vy) * 1.5) := by
  unfold splitChild
  simp only []
  have hsq : Real.cos (atan2 t.vy t.vx + (if k = 0 then (1 : ℝ) else -1) * (Real.pi / 3)) *
        max 4 (Real.sqrt (t.vx * t.vx + t.vy * t.vy) * 1.5) *
      (Real.cos (atan2 t.vy t.vx + (if k = 0 then (1 : ℝ) else -1) * (Real.pi / 3)) *
        max 4 (Real.sqrt (t.vx * t.vx + t.vy * t.vy) * 1.5)) +
      Real.sin (atan2 t.vy t.vx + (if k = 0 then (1 : ℝ) else -1) * (Real.pi / 3)) *
        max 4 (Real.sqrt (t.vx * t.vx + t.vy * t.vy) * 1.5) *
      (Real.sin (atan2 t.vy t.vx + (if k = 0 then (1 : ℝ) else -1) * (Real.pi / 3)) *
        max 4 (Real.sqrt (t.vx * t.vx + t.vy * t.vy) * 1.5)) =
      (max 4 (Real.sqrt (t.vx * t.vx + t.vy * t.vy) * 1.5)) ^ 2 := by
    have h := Real.sin_sq_add_cos_sq
      (atan2 t.vy t.vx + (if k = 0 then (1 : ℝ) else -1) * (Real.pi / 3))
    nlinarith [h]
  rw [hsq, Real.sqrt_sq]
  have h4 : (0 : ℝ) ≤ 4 := by norm_num
  exact le_trans h4 (le_max_left _ _)

/-- C8: destroying a SPLIT target with a color-matching hit removes the
parent and appends exactly two NORMAL children sharing the parent's
color, headed at `±60°` (`±π/3`) from the parent's velocity heading at
speed `max(4, 1.5 × parent speed)` (the minimum floor), with radius
reduced to 0.6 of the parent's; the target list length changes by
exactly +1. -/
theorem split_destruction_children (diffS : DifficultySetting) (sr : SplitRoll)
    (p : Projectile) (i : ℕ) (s : SimState)
    (hi : i < s.targets.length)
    (hty : (s.targets.getD i default).type = TargetType.SPLIT)
    (hcol : p.color = (s.targets.getD i default).color) :
    (resolveHit diffS sr p i s).targets =
      s.targets.eraseIdx i ++
        [splitChild (s.targets.getD i default) 0 sr.rotSpeed1,
         splitChild (s.targets.getD i default) 1 sr.rotSpeed2] ∧
    (resolveHit diffS sr p i s).targets.length = s.targets.length + 1 ∧
    (∀ k rs, (splitChild (s.targets.getD i default) k rs).type = TargetType.NORMAL ∧
      (splitChild (s.targets.getD i default) k rs).color =
        (s.targets.getD i default).color ∧
      (splitChild (s.targets.getD i default) k rs).radius =
        (s.targets.getD i default).radius * 0.6 ∧
      (splitChild (s.targets.getD i default) k rs).vx =
        Real.cos (atan2 (s.targets.getD i default).vy (s.targets.getD i default).vx +
          (if k = 0 then (1 : ℝ) else -1) * (Real.pi / 3)) *
          max 4 (Real.sqrt ((s.targets.getD i default).vx * (s.targets.getD i default).vx +
            (s.targets.getD i default).vy * (s.targets.getD i default).vy) * 1.5) ∧
      (splitChild (s.targets.getD i default) k rs).vy =
        Real.sin (atan2 (s.targets.getD i default).vy (s.targets.getD i default).vx +
          (if k = 0 then (1 : ℝ) else -1) * (Real.pi / 3)) *
          max 4 (Real.sqrt ((s.targets.getD i default).vx * (s.targets.getD i default).vx +
            (s.targets.getD i default).vy * (s.targets.getD i default).vy) * 1.5) ∧
      Real.sqrt ((splitChild (s.targets.getD i default) k rs).vx *
          (splitChild (s.targets.getD i default) k rs).vx +
        (splitChild (s.targets.getD i default) k rs).vy *
          (splitChild (s.targets.getD i default) k rs).vy) =
        max 4 (Real.sqrt ((s.targets.getD i default).vx * (s.targets.getD i default).vx +
          (s.targets.getD i default).vy * (s.targets.getD i default).vy) * 1.5)) := by
  have htargets : (resolveHit diffS sr p i s).targets =
      s.targets.eraseIdx i ++
        [splitChild (s.targets.getD i default) 0 sr.rotSpeed1,
         splitChild (s.targets.getD i default) 1 sr.rotSpeed2] := by
    unfold resolveHit
    rw [if_pos hcol, hty]
    rw [if_neg (by simp)]
    simp
  refine ⟨htargets, ?_, ?_⟩
  · rw [htargets, List.length_append, List.length_eraseIdx, if_pos hi]
    simp only [List.length_cons, List.length_nil]
    omega
  · intro k rs
    refine ⟨rfl, rfl, rfl, rfl, rfl, splitChild_speed _ k rs⟩

/-- A SPLIT GREEN target moving at velocity (3, 4). -/
noncomputable def c8Target : Target :=
  ⟨100, 100, 3, 4, ColorType.GREEN, 32, 0, 0, TargetType.SPLIT, TargetShape.CIRCLE, 1,
    none, none, none, none, none⟩

/-- A session state holding the single SPLIT target. -/
noncomputable def c8State : SimState :=
  ⟨[c8Target], ColorType.GREEN, 0, 1, 0, false, 0, 1, 1600, 0, false, 0, c1Stats0, []⟩

/-- A GREEN projectile on top of the SPLIT target. -/
noncomputable def c8Proj : Projectile :=
  ⟨100, 100, 0, 0, ColorType.GREEN, 12, true⟩

/-- Witness for the C8 theorem at a concrete SPLIT destruction. -/
theorem split_destruction_children_witness :
    (resolveHit (DIFFICULTY_SETTINGS Difficulty.MEDIUM) ⟨1, 2⟩ c8Proj 0 c8State).targets =
      c8State.targets.eraseIdx 0 ++
        [splitChild (c8State.targets.getD 0 default) 0 (1 : ℝ),
         splitChild (c8State.targets.getD 0 default) 1 (2 : ℝ)] ∧
    (resolveHit (DIFFICULTY_SETTINGS Difficulty.MEDIUM) ⟨1, 2⟩ c8Proj 0 c8State).targets.length =
      c8State.targets.length + 1 := by
  have h := split_destruction_children (DIFFICULTY_SETTINGS Difficulty.MEDIUM) ⟨1, 2⟩
    c8Proj 0 c8State (by simp [c8State]) rfl rfl
  exact ⟨h.1, h.2.1⟩

/-- C6: a color-matching hit on the BOSS at health ≤ 1 destroys it and:
increments level by exactly 1, clears the boss-active flag, resets the
boss-progress accumulator to exactly 0 (the transient +50 is
overwritten), strictly increases the global speed multiplier by 0.2,
sets the base spawn interval to `max(300, old - 50)` — never below the
300 ms floor, and not above the old value once the interval is ≥ 300 —
and increments the boss-kill session stat by 1. -/
theorem boss_destruction_effects (diffS : DifficultySetting) (sr : SplitRoll)
    (p : Projectile) (i : ℕ) (s : SimState)
    (hty : (s.targets.getD i default).type = TargetType.BOSS)
    (hcol : p.color = (s.targets.getD i default).color)
    (hhp : ¬ (s.targets.getD i default).health > 1) :
    (resolveHit diffS sr p i s).level = s.level + 1 ∧
    (resolveHit diffS sr p i s).bossActive = false ∧
    (resolveHit diffS sr p i s).scoreSinceLastBoss = 0 ∧
    (resolveHit diffS sr p i s).speedMultiplier = s.speedMultiplier + 0.2 ∧
    s.speedMultiplier < (resolveHit diffS sr p i s).speedMultiplier ∧
    (resolveHit diffS sr p i s).baseSpawnInterval = max 300 (s.baseSpawnInterval - 50) ∧
    (300 ≤ s.baseSpawnInterval →
      (resolveHit diffS sr p i s).baseSpawnInterval ≤ s.baseSpawnInterval) ∧
    300 ≤ (resolveHit diffS sr p i s).baseSpawnInterval ∧
    (resolveHit diffS sr p i s).stats.bossKills = s.stats.bossKills + 1 := by
  have hres : resolveHit diffS sr p i s =
      (let t := s.targets.getD i default
      let streak1 := s.streak + 1
      let stats1 := { s.stats with highestStreak := max s.stats.highestStreak streak1 }
      let mult := streakMultiplier streak1
      let baseScore := TARGET_SCORES TargetType.BOSS
      let score2 := s.score + baseScore * diffS.scoreMultiplier * mult
      let stats2 :=
        { stats1 with targetsHit := stats1.targetsHit + 1 }
      let targets2 := s.targets.eraseIdx i
      { s with
        streak := streak1
        shakeTimer := 150
        score := score2
        level := s.level + 1
        bossActive := false
        scoreSinceLastBoss := 0
        speedMultiplier := s.speedMultiplier + 0.2
        baseSpawnInterval := max 300 (s.baseSpawnInterval - 50)
        stats := { stats2 with
          bossKills := stats2.bossKills + 1
          highestLevel := max stats2.highestLevel (s.level + 1) }
        targets := targets2 }) := by
    unfold resolveHit
    rw [if_pos hcol, hty]
    rw [if_neg (fun hc => hhp hc.2)]
    simp
  rw [hres]
  refine ⟨rfl, rfl, rfl, rfl, by norm_num, rfl, ?_, le_max_left _ _, rfl⟩
  intro hb
  exact max_le (by linarith) (by linarith)

/-- A BOSS target at health 1 (the destroying hit). -/
noncomputable def c6Target : Target :=
  ⟨200, 200, 1, 3, ColorType.YELLOW, 60, 0, 1, TargetType.BOSS, TargetShape.STAR, 1,
    some 20, some 0, none, none, some 4000⟩

/-- A boss-fight session state with base spawn interval 1000 ms. -/
noncomputable def c6State : SimState :=
  ⟨[c6Target], ColorType.YELLOW, 0, 2, 120, true, 4, 1.2, 1000, 0, false, 0,
    c1Stats0, []⟩

/-- A YELLOW projectile on top of the boss. -/
noncomputable def c6Proj : Projectile :=
  ⟨200, 200, 0, 0, ColorType.YELLOW, 12, true⟩

/-- Witness for the C6 theorem at a concrete boss-destroying hit. -/
theorem boss_destruction_effects_witness :
    (resolveHit (DIFFICULTY_SETTINGS Difficulty.MEDIUM) ⟨0, 0⟩ c6Proj 0 c6State).level =
      c6State.level + 1 ∧
    (resolveHit (DIFFICULTY_SETTINGS Difficulty.MEDIUM) ⟨0, 0⟩ c6Proj 0 c6State).bossActive =
      false ∧
    (resolveHit (DIFFICULTY_SETTINGS Difficulty.MEDIUM) ⟨0, 0⟩ c6Proj 0
      c6State).scoreSinceLastBoss = 0 ∧
    (resolveHit (DIFFICULTY_SETTINGS Difficulty.MEDIUM) ⟨0, 0⟩ c6Proj 0
      c6State).baseSpawnInterval ≤ c6State.baseSpawnInterval ∧
    300 ≤ (resolveHit (DIFFICULTY_SETTINGS Difficulty.MEDIUM) ⟨0, 0⟩ c6Proj 0
      c6State).baseSpawnInterval ∧
    (resolveHit (DIFFICULTY_SETTINGS Difficulty.MEDIUM) ⟨0, 0⟩ c6Proj 0
      c6State).stats.bossKills = c6State.stats.bossKills + 1 := by
  have h := boss_destruction_effects (DIFFICULTY_SETTINGS Difficulty.MEDIUM) ⟨0, 0⟩
    c6Proj 0 c6State rfl rfl (by simp [c6State, c6Target])
  exact ⟨h.1, h.2.1, h.2.2.1, h.2.2.2.2.2.2.1 (by norm_num [c6State]),
    h.2.2.2.2.2.2.2.1, h.2.2.2.2.2.2.2.2⟩

/-- The boss-trigger threshold:
`GAME_CONFIG.POINTS_PER_LEVEL + state.level * 100`. -/
noncomputable def pointsForNextLevel (level : ℕ) : ℝ :=
  GAME_CONFIG.POINTS_PER_LEVEL + (level : ℝ) * 100

/-- The random draws of a boss spawn: the per-target thinning decisions
(`Math.random() > 0.6`, indexed by position) and the boss's color and
random horizontal velocity `(Math.random() - 0.5) * 2`. -/
structure BossRoll where
  keep : ℕ → Bool
  color : ColorType
  vx : ℝ

/-- Helper for `thinFilter`, threading the element index. -/
def thinFilterAux (keep : ℕ → Bool) : ℕ → List Target → List Target
  | _, [] => []
  | i, t :: ts =>
      if keep i then t :: thinFilterAux keep (i + 1) ts else thinFilterAux keep (i + 1) ts

/-- The probabilistic thinning `targets.filter(t => Math.random() > 0.6)`
before a boss spawn, with the coin flips passed in as `keep`. -/
def thinFilter (keep : ℕ → Bool) (ts : List Target) : List Target :=
  thinFilterAux keep 0 ts

/-- The boss target pushed by the boss trigger: enters from above at
`(width / 2, -120)`, STAR shape, health `10 + level * 5 * bossHealthMulti`. -/
noncomputable def mkBossTarget (diffS : DifficultySetting) (width : ℝ) (level : ℕ)
    (r : BossRoll) : Target :=
  { x := width / 2
    y := -120
    vx := r.vx
    vy := 3
    color := r.color
    radius := GAME_CONFIG.BOSS_RADIUS
    rotation := 0
    rotationSpeed := 1
    type := TargetType.BOSS
    shape := TargetShape.STAR
    health := 10 + (level : ℝ) * 5 * diffS.bossHealthMulti
    maxHealth := some (10 + (level : ℝ) * 5 * diffS.bossHealthMulti)
    colorShiftTimer := some 0
    initialY := none
    timeOffset := none
    summonTimer := some 4000 }

/-- The boss trigger at the top of the spawning logic: when no boss is
active and the boss-progress accumulator exceeds the level threshold,
set boss-active, reset the accumulator to 0 immediately, thin the
target list probabilistically, and push exactly one BOSS target. -/
noncomputable def spawnBoss (diffS : DifficultySetting) (width : ℝ) (r : BossRoll)
    (s : SimState) : SimState :=
  if s.bossActive = false ∧ s.scoreSinceLastBoss > pointsForNextLevel s.level then
    { s with
      bossActive := true
      scoreSinceLastBoss := 0
      targets := thinFilter r.keep s.targets ++ [mkBossTarget diffS width s.level r] }
  else s

/-- The random draws of one ordinary spawn attempt.  `posX`/`posY` stand
for the already-drawn random position in the upper arena, `shape` for
the draw from the level-gated shape unlock list (cosmetic), `angle` for
the random heading, and `sineDir` for the SINE_WAVE direction coin. -/
structure SpawnRoll where
  intervalRandomness : ℝ
  posX : ℝ
  posY : ℝ
  color : ColorType
  shape : TargetShape
  roll : ℝ
  typeRoll : ℝ
  angle : ℝ
  sineDir : Bool
  rotation : ℝ
  rotationSpeed : ℝ
  timeOffset : ℝ

/-- `specialChance`: 0.15 on EASY, 0.35 on MEDIUM, 0.6 on HARD. -/
noncomputable def specialChance (d : Difficulty) : ℝ :=
  if d = Difficulty.EASY then 0.15 else if d = Difficulty.MEDIUM then 0.35 else 0.6

/-- The spawned target's kind: NORMAL unless the score/difficulty gate
is open and the special roll succeeds, in which case the type roll
selects among the five special kinds. -/
noncomputable def rollTargetType (d : Difficulty) (score roll typeRoll : ℝ) : TargetType :=
  if (score ≥ 15 ∨ d ≠ Difficulty.EASY) ∧ roll < specialChance d then
    if typeRoll < 0.25 then TargetType.TOUGH
    else if typeRoll < 0.45 then TargetType.SPLIT
    else if typeRoll < 0.65 then TargetType.STATIONARY
    else if typeRoll < 0.85 then TargetType.COLOR_SHIFT
    else TargetType.SINE_WAVE
  else TargetType.NORMAL

/-- The target built by an ordinary spawn, including the per-kind
physical setup (TOUGH: 3 health and 0.8 speed; STATIONARY: zero
velocity; SINE_WAVE: horizontal motion only with the start height
clamped away from the arena edges). -/
noncomputable def mkSpawnedTarget (diffS : DifficultySetting) (d : Difficulty)
    (playableHeight : ℝ) (r : SpawnRoll) (s : SimState) : Target :=
  let radius := GAME_CONFIG.TARGET_RADIUS
  let speed := GAME_CONFIG.TARGET_SPEED_BASE * s.speedMultiplier * diffS.speedMultiplier
  let ty := rollTargetType d s.score r.roll r.typeRoll
  let vx0 := Real.cos r.angle * speed
  let vy0 := Real.sin r.angle * speed
  let startY :=
    if ty = TargetType.SINE_WAVE then
      max (radius + 70) (min (playableHeight - radius - 70) r.posY)
    else r.posY
  { x := r.posX
    y := startY
    vx :=
      if ty = TargetType.TOUGH then vx0 * 0.8
      else if ty = TargetType.STATIONARY then 0
      else if ty = TargetType.SINE_WAVE then (if r.sineDir then 1 else -1) * speed * 1.2
      else vx0
    vy :=
      if ty = TargetType.TOUGH then vy0 * 0.8
      else if ty = TargetType.STATIONARY then 0
      else if ty = TargetType.SINE_WAVE then 0
      else vy0
    color := r.color
    radius := radius
    rotation := r.rotation
    rotationSpeed := r.rotationSpeed
    type := ty
    shape := r.shape
    health := if ty = TargetType.TOUGH then 3 else 1
    maxHealth := none
    colorShiftTimer := some 0
    initialY := some startY
    timeOffset := some r.timeOffset
    summonTimer := none }

/-- The spawn-position clearance check: the drawn position is rejected
if any existing target is within `radius * 2 + 40`. -/
noncomputable def validSpawnPosition (startX startY : ℝ) (ts : List Target) : Prop :=
  ∀ t ∈ ts, ¬ (Real.sqrt ((t.x - startX) * (t.x - startX) +
    (t.y - startY) * (t.y - startY)) < GAME_CONFIG.TARGET_RADIUS * 2 + 40)

/-- The computed density cap:
`min(floor(maxTargets * (1 + (speedMultiplier - 1) * 0.5)), 24)`. -/
noncomputable def densityCap (diffS : DifficultySetting) (speedMultiplier : ℝ) : ℤ :=
  min ⌊(diffS.maxTargets : ℝ) * (1 + (speedMultiplier - 1) * 0.5)⌋ 24

/-- One ordinary spawn attempt (the body of the spawn-timer fire): the
next spawn delay is re-randomized, and a target is appended only when
the list is below the density cap, the list holds fewer than 3 targets
whenever a boss is active, and the drawn position has clearance. -/
noncomputable def spawnOrdinary (diffS : DifficultySetting) (d : Difficulty)
    (playableHeight : ℝ) (r : SpawnRoll) (s : SimState) : SimState :=
  let s1 := { s with nextSpawnDelay := s.baseSpawnInterval * r.intervalRandomness }
  if (s.targets.length : ℤ) < densityCap diffS s.speedMultiplier ∧
      (s.bossActive = false ∨ s.targets.length < 3) ∧
      validSpawnPosition r.posX r.posY s.targets then
    { s1 with targets := s.targets ++ [mkSpawnedTarget diffS d playableHeight r s] }
  else s1

/-- The random draws of one minion summon: the two placement angles and
random velocities `(Math.random() - 0.5) * 3`. -/
structure MinionRoll where
  angle1 : ℝ
  v1x : ℝ
  v1y : ℝ
  angle2 : ℝ
  v2x : ℝ
  v2y : ℝ

/-- One boss minion: a NORMAL target adjacent to the boss (at
`boss.radius + 40` along a random angle) sharing the boss's color, with
radius `TARGET_RADIUS * 0.8`. -/
noncomputable def mkMinion (boss : Target) (angle vx vy : ℝ) : Target :=
  { x := boss.x + Real.cos angle * (boss.radius + 40)
    y := boss.y + Real.sin angle * (boss.radius + 40)
    vx := vx
    vy := vy
    color := boss.color
    radius := GAME_CONFIG.TARGET_RADIUS * 0.8
    rotation := 0
    rotationSpeed := 2
    type := TargetType.NORMAL
    shape := TargetShape.CIRCLE
    health := 1
    maxHealth := none
    colorShiftTimer := none
    initialY := none
    timeOffset := none
    summonTimer := none }

/-- The boss minion-summon ability (inside the per-target update loop):
decrement the summon timer by the elapsed time; when it reaches 0,
reset it to 5000 ms and append two NORMAL minions sharing the boss's
current color.  No density-cap check guards this append. -/
noncomputable def bossSummonStep (deltaTime : ℝ) (i : ℕ) (r : MinionRoll)
    (s : SimState) : SimState :=
  let t := s.targets.getD i default
  if t.type = TargetType.BOSS then
    let timer := t.summonTimer.getD 0 - deltaTime
    if timer ≤ 0 then
      { s with targets := s.targets.set i { t with summonTimer := some 5000 } ++
          [mkMinion t r.angle1 r.v1x r.v1y, mkMinion t r.angle2 r.v2x r.v2y] }
    else
      { s with targets := s.targets.set i { t with summonTimer := some timer } }
  else s

/-- The dummy STATIONARY target `handleColorSelect` pushes during
tutorial step 1, colored like the selected color. -/
noncomputable def tutorialTarget (width height : ℝ) (color : ColorType) : Target :=
  { x := width / 2
    y := height / 3
    vx := 0
    vy := 0
    color := color
    radius := GAME_CONFIG.TARGET_RADIUS
    rotation := 0
    rotationSpeed := 1.5
    type := TargetType.STATIONARY
    shape := TargetShape.CIRCLE
    health := 1
    maxHealth := none
    colorShiftTimer := none
    initialY := none
    timeOffset := none
    summonTimer := none }

/-- C10: at boss spawn time (boss-progress accumulator above the level
threshold while no boss is active), the accumulator is immediately
reset to exactly 0 — progress beyond the threshold is discarded and the
accumulator restarts from 0 during the boss fight, not only on boss
defeat. -/
theorem boss_spawn_resets_progress (diffS : DifficultySetting) (width : ℝ)
    (r : BossRoll) (s : SimState)
    (hb : s.bossActive = false)
    (hp : s.scoreSinceLastBoss > pointsForNextLevel s.level) :
    (spawnBoss diffS width r s).scoreSinceLastBoss = 0 ∧
    (spawnBoss diffS width r s).bossActive = true := by
  unfold spawnBoss
  rw [if_pos ⟨hb, hp⟩]
  exact ⟨rfl, rfl⟩

/-- A state just past the level-1 boss threshold (400 points) with 500
accumulated progress points. -/
noncomputable def c10State : SimState :=
  ⟨[], ColorType.RED, 500, 1, 500, false, 0, 1, 1600, 0, false, 0, c1Stats0, []⟩

/-- Witness for the C10 theorem: the over-threshold progress 500 is
discarded at spawn. -/
theorem boss_spawn_resets_progress_witness :
    (spawnBoss (DIFFICULTY_SETTINGS Difficulty.MEDIUM) 400 ⟨fun _ => true, ColorType.RED, 0⟩
      c10State).scoreSinceLastBoss = 0 ∧
    (spawnBoss (DIFFICULTY_SETTINGS Difficulty.MEDIUM) 400 ⟨fun _ => true, ColorType.RED, 0⟩
      c10State).bossActive = true :=
  boss_spawn_resets_progress (DIFFICULTY_SETTINGS Difficulty.MEDIUM) 400
    ⟨fun _ => true, ColorType.RED, 0⟩ c10State rfl
    (by norm_num [c10State, pointsForNextLevel, GAME_CONFIG.POINTS_PER_LEVEL])

/-- C2 (amended): the ordinary spawn is the only target-appending
operation gated by the density cap: it appends a target only when the
list length is strictly below
`min(floor(maxTargets * (1 + (speedMultiplier - 1) * 0.5)), 24)`, so it
preserves `length ≤ cap`.  SPLIT child creation, boss minion summons
and the boss spawn append without consulting the cap and can exceed it. -/
theorem spawn_respects_density_cap (diffS : DifficultySetting) (d : Difficulty)
    (playableHeight : ℝ) (r : SpawnRoll) (s : SimState)
    (h : (s.targets.length : ℤ) ≤ densityCap diffS s.speedMultiplier) :
    ((spawnOrdinary diffS d playableHeight r s).targets.length : ℤ) ≤
      densityCap diffS (spawnOrdinary diffS d playableHeight r s).speedMultiplier := by
  unfold spawnOrdinary
  split
  case isTrue hcond =>
    show ((s.targets ++ [mkSpawnedTarget diffS d playableHeight r s]).length : ℤ) ≤
      densityCap diffS s.speedMultiplier
    rw [List.length_append]
    push_cast
    simp only [List.length_cons, List.length_nil]
    have h1 := hcond.1
    omega
  case isFalse =>
    exact h

theorem densityCap_medium_one :
    densityCap (DIFFICULTY_SETTINGS Difficulty.MEDIUM) 1 = 12 := by
  unfold densityCap DIFFICULTY_SETTINGS
  norm_num

/-- A sample ordinary-spawn roll (NORMAL kind: the special roll fails). -/
noncomputable def c2Roll : SpawnRoll :=
  ⟨1, 50, 50, ColorType.RED, TargetShape.CIRCLE, 1, 0, 0, true, 0, 0, 0⟩

/-- Witness for the amended C2 theorem at the one-target scenario state. -/
theorem spawn_respects_density_cap_witness :
    ((spawnOrdinary (DIFFICULTY_SETTINGS Difficulty.MEDIUM) Difficulty.MEDIUM 700 c2Roll
        c1State).targets.length : ℤ) ≤
      densityCap (DIFFICULTY_SETTINGS Difficulty.MEDIUM)
        (spawnOrdinary (DIFFICULTY_SETTINGS Difficulty.MEDIUM) Difficulty.MEDIUM 700 c2Roll
          c1State).speedMultiplier :=
  spawn_respects_density_cap (DIFFICULTY_SETTINGS Difficulty.MEDIUM) Difficulty.MEDIUM
    700 c2Roll c1State
    (by rw [show c1State.speedMultiplier = 1 from rfl, densityCap_medium_one]
        norm_num [c1State])

/-- A boss whose summon timer has run out. -/
noncomputable def c2Boss : Target :=
  ⟨200, 100, 0, 0, ColorType.RED, 60, 0, 1, TargetType.BOSS, TargetShape.STAR, 14,
    some 14, some 0, none, none, some (-5)⟩

/-- A boss-fight state exactly at the MEDIUM density cap of 12 targets. -/
noncomputable def c2State : SimState :=
  ⟨c2Boss :: List.replicate 11 c4Target, ColorType.RED, 600, 1, 0, true, 0, 1, 1600, 0,
    false, 0, c1Stats0, []⟩

theorem c2State_len : c2State.targets.length = 12 := by
  simp [c2State]

/-- The state after the minion summon at the cap: 14 targets. -/
noncomputable def c2After : SimState :=
  { c2State with targets :=
      c2State.targets.set 0 { c2Boss with summonTimer := some 5000 } ++
        [mkMinion c2Boss 0 0 0, mkMinion c2Boss 0 0 0] }

/-- C2: the claim asserts every target-appending operation (ordinary
spawn, SPLIT children, boss minion summon, boss spawn) preserves
`length <= density cap`.  Counterexample: at the MEDIUM cap of 12 with a
boss whose summon timer has expired, the minion summon appends two
targets without any cap check, reaching 14 > 12. -/
theorem c2_claim_counterexample :
    (c2State.targets.length : ℤ) ≤
      densityCap (DIFFICULTY_SETTINGS Difficulty.MEDIUM) c2State.speedMultiplier ∧
    ¬ (((bossSummonStep 16 0 ⟨0, 0, 0, 0, 0, 0⟩ c2State).targets.length : ℤ) ≤
      densityCap (DIFFICULTY_SETTINGS Difficulty.MEDIUM)
        (bossSummonStep 16 0 ⟨0, 0, 0, 0, 0, 0⟩ c2State).speedMultiplier) := by
  have heval : bossSummonStep 16 0 ⟨0, 0, 0, 0, 0, 0⟩ c2State = c2After := by
    unfold bossSummonStep c2After
    rw [show c2State.targets.getD 0 default = c2Boss from rfl]
    rw [if_pos (show c2Boss.type = TargetType.BOSS from rfl)]
    rw [if_pos (show c2Boss.summonTimer.getD 0 - 16 ≤ 0 by norm_num [c2Boss])]
  constructor
  · rw [show c2State.speedMultiplier = 1 from rfl, densityCap_medium_one, c2State_len]
    norm_num
  · rw [heval]
    have hlen : c2After.targets.length = 14 := by
      show (c2State.targets.set 0 _ ++ [_, _]).length = 14
      rw [List.length_append, List.length_set, c2State_len]
      rfl
    rw [hlen]
    rw [show c2After.speedMultiplier = 1 from rfl, densityCap_medium_one]
    norm_num

/-- Number of BOSS-kind targets in a list. -/
def bossCount (ts : List Target) : ℕ :=
  ts.countP fun t => decide (t.type = TargetType.BOSS)

theorem bossCount_nil : bossCount [] = 0 := rfl

theorem bossCount_cons (t : Target) (ts : List Target) :
    bossCount (t :: ts) = bossCount ts + (if t.type = TargetType.BOSS then 1 else 0) := by
  unfold bossCount
  rw [List.countP_cons]
  by_cases h : t.type = TargetType.BOSS
  · rw [if_pos h, if_pos (by rw [h]; rfl)]
  · rw [if_neg h, if_neg (by simpa using h)]

theorem bossCount_append (ts us : List Target) :
    bossCount (ts ++ us) = bossCount ts + bossCount us :=
  List.countP_append _ ts us

theorem bossCount_set (ts : List Target) (i : ℕ) (t' : Target)
    (h : t'.type = (ts.getD i default).type) :
    bossCount (ts.set i t') = bossCount ts := by
  induction ts generalizing i with
  | nil => rfl
  | cons a ts ih =>
    cases i with
    | zero =>
      rw [show ((a :: ts).getD 0 default) = a from rfl] at h
      show bossCount (t' :: ts) = bossCount (a :: ts)
      rw [bossCount_cons, bossCount_cons, h]
    | succ n =>
      rw [show ((a :: ts).getD (n + 1) default) = ts.getD n default from rfl] at h
      show bossCount (a :: ts.set n t') = bossCount (a :: ts)
      rw [bossCount_cons, bossCount_cons, ih n h]

theorem bossCount_eraseIdx_nonboss (ts : List Target) (i : ℕ)
    (h : ¬ (ts.getD i default).type = TargetType.BOSS) :
    bossCount (ts.eraseIdx i) = bossCount ts := by
  induction ts generalizing i with
  | nil => rfl
  | cons a ts ih =>
    cases i with
    | zero =>
      rw [show ((a :: ts).getD 0 default) = a from rfl] at h
      show bossCount ts = bossCount (a :: ts)
      rw [bossCount_cons, if_neg h]
      omega
    | succ n =>
      rw [show ((a :: ts).getD (n + 1) default) = ts.getD n default from rfl] at h
      show bossCount (a :: ts.eraseIdx n) = bossCount (a :: ts)
      rw [bossCount_cons, bossCount_cons, ih n h]

theorem bossCount_eraseIdx_boss (ts : List Target) (i : ℕ) (hi : i < ts.length)
    (h : (ts.getD i default).type = TargetType.BOSS) :
    bossCount ts = bossCount (ts.eraseIdx i) + 1 := by
  induction ts generalizing i with
  | nil => exact absurd hi (by simp)
  | cons a ts ih =>
    cases i with
    | zero =>
      rw [show ((a :: ts).getD 0 default) = a from rfl] at h
      show bossCount (a :: ts) = bossCount ts + 1
      rw [bossCount_cons, if_pos h]
    | succ n =>
      rw [show ((a :: ts).getD (n + 1) default) = ts.getD n default from rfl] at h
      show bossCount (a :: ts) = bossCount (a :: ts.eraseIdx n) + 1
      rw [bossCount_cons, bossCount_cons,
        ih n (Nat.lt_of_succ_lt_succ hi) h]
      omega

theorem bossCount_thinFilterAux (keep : ℕ → Bool) (ts : List Target) :
    ∀ n, bossCount (thinFilterAux keep n ts) ≤ bossCount ts := by
  induction ts with
  | nil => intro n; exact le_refl 0
  | cons a ts ih =>
    intro n
    unfold thinFilterAux
    split
    · rw [bossCount_cons, bossCount_cons]
      exact Nat.add_le_add_right (ih (n + 1)) _
    · rw [bossCount_cons]
      exact le_trans (ih (n + 1)) (Nat.le_add_right _ _)

theorem bossCount_map_type (ts us : List Target)
    (h : ts.map Target.type = us.map Target.type) : bossCount ts = bossCount us := by
  have h2 := congrArg (List.countP fun ty => decide (ty = TargetType.BOSS)) h
  rw [List.countP_map, List.countP_map] at h2
  exact h2

theorem rollTargetType_ne_boss (d : Difficulty) (score roll typeRoll : ℝ) :
    ¬ rollTargetType d score roll typeRoll = TargetType.BOSS := by
  unfold rollTargetType
  split
  · split
    · simp
    · split
      · simp
      · split
        · simp
        · split
          · simp
          · simp
  · simp

theorem resolveHit_mismatch_shape (diffS : DifficultySetting) (sr : SplitRoll)
    (p : Projectile) (i : ℕ) (s : SimState)
    (hcol : ¬ p.color = (s.targets.getD i default).color) :
    (resolveHit diffS sr p i s).targets = s.targets ∧
    (resolveHit diffS sr p i s).bossActive = s.bossActive := by
  unfold resolveHit
  rw [if_neg hcol]
  exact ⟨rfl, rfl⟩

theorem resolveHit_damage_shape (diffS : DifficultySetting) (sr : SplitRoll)
    (p : Projectile) (i : ℕ) (s : SimState)
    (hcol : p.color = (s.targets.getD i default).color)
    (hdmg : ((s.targets.getD i default).type = TargetType.TOUGH ∨
      (s.targets.getD i default).type = TargetType.BOSS) ∧
      (s.targets.getD i default).health > 1) :
    (resolveHit diffS sr p i s).targets =
      s.targets.set i { s.targets.getD i default with
        health := (s.targets.getD i default).health - 1 } ∧
    (resolveHit diffS sr p i s).bossActive = s.bossActive := by
  unfold resolveHit
  rw [if_pos hcol, if_pos hdmg]
  exact ⟨rfl, rfl⟩

theorem resolveHit_destroy_nonboss_shape (diffS : DifficultySetting) (sr : SplitRoll)
    (p : Projectile) (i : ℕ) (s : SimState)
    (hcol : p.color = (s.targets.getD i default).color)
    (hdmg : ¬ (((s.targets.getD i default).type = TargetType.TOUGH ∨
      (s.targets.getD i default).type = TargetType.BOSS) ∧
      (s.targets.getD i default).health > 1))
    (hnb : ¬ (s.targets.getD i default).type = TargetType.BOSS) :
    ((resolveHit diffS sr p i s).targets = s.targets.eraseIdx i ∨
      (resolveHit diffS sr p i s).targets = s.targets.eraseIdx i ++
        [splitChild (s.targets.getD i default) 0 sr.rotSpeed1,
         splitChild (s.targets.getD i default) 1 sr.rotSpeed2]) ∧
    (resolveHit diffS sr p i s).bossActive = s.bossActive := by
  unfold resolveHit
  rw [if_pos hcol, if_neg hdmg, if_neg hnb]
  by_cases hsp : (s.targets.getD i default).type = TargetType.SPLIT
  · rw [if_pos hsp]
    exact ⟨Or.inr rfl, rfl⟩
  · rw [if_neg hsp]
    exact ⟨Or.inl rfl, rfl⟩

theorem resolveHit_destroy_boss_shape (diffS : DifficultySetting) (sr : SplitRoll)
    (p : Projectile) (i : ℕ) (s : SimState)
    (hcol : p.color = (s.targets.getD i default).color)
    (hdmg : ¬ (((s.targets.getD i default).type = TargetType.TOUGH ∨
      (s.targets.getD i default).type = TargetType.BOSS) ∧
      (s.targets.getD i default).health > 1))
    (hb : (s.targets.getD i default).type = TargetType.BOSS) :
    (resolveHit diffS sr p i s).targets = s.targets.eraseIdx i ∧
    (resolveHit diffS sr p i s).bossActive = false := by
  unfold resolveHit
  simp only [if_pos hcol, if_neg hdmg]
  simp only [hb, reduceIte]
  exact ⟨rfl, trivial⟩

/-! ### C5: at most one active BOSS target (a reachable-state invariant) -/

/-- All-zero session statistics, the value a fresh profile starts from. -/
def initialStats : GameStats :=
  ⟨0, 0, 0, 0, 0, 0, 0, 0, 0, 0, 0, 0, 0, 0, 0⟩

/-- The session's initial `gameStateRef` value: no targets, boss flag
clear, level 1, speed multiplier 1, base spawn interval scaled by the
difficulty's interval multiplier; the persisted stats `st0` are carried
in unchanged. -/
noncomputable def initState (diffS : DifficultySetting) (st0 : GameStats) : SimState :=
  { targets := []
    currentColor := ColorType.RED
    score := 0
    level := 1
    scoreSinceLastBoss := 0
    bossActive := false
    streak := 0
    speedMultiplier := 1
    baseSpawnInterval := GAME_CONFIG.SPAWN_INTERVAL_START * diffS.spawnIntervalMultiplier
    nextSpawnDelay := 0
    isEnding := false
    shakeTimer := 0
    stats := st0
    handoffDelays := [] }

/-- One atomic mutation of the session state during play: the boss
trigger, an ordinary spawn-timer fire, a boss minion summon, the
resolution of one projectile hit, the tutorial's dummy-target push,
or a kinematic frame update.  The frame update is abstracted by what
it does to the data the boss invariant depends on: it may move,
recolor, rotate, or cull (off-screen removal, probabilistic thinning)
targets, but a surviving target keeps its kind in order, and the boss
flag is untouched. -/
inductive SessionStep (diffS : DifficultySetting) (d : Difficulty) :
    SimState → SimState → Prop
  | bossTrigger (width : ℝ) (r : BossRoll) (s : SimState) :
      SessionStep diffS d s (spawnBoss diffS width r s)
  | ordinarySpawn (playableHeight : ℝ) (r : SpawnRoll) (s : SimState) :
      SessionStep diffS d s (spawnOrdinary diffS d playableHeight r s)
  | minionSummon (deltaTime : ℝ) (i : ℕ) (r : MinionRoll) (s : SimState) :
      SessionStep diffS d s (bossSummonStep deltaTime i r s)
  | projectileHit (sr : SplitRoll) (p : Projectile) (i : ℕ) (s : SimState)
      (hi : i < s.targets.length) :
      SessionStep diffS d s (resolveHit diffS sr p i s)
  | tutorialSpawn (width height : ℝ) (c : ColorType) (s : SimState) :
      SessionStep diffS d s
        { s with targets := s.targets ++ [tutorialTarget width height c] }
  | frame (s s' : SimState)
      (hty : (s'.targets.map Target.type).Sublist (s.targets.map Target.type))
      (hba : s'.bossActive = s.bossActive) :
      SessionStep diffS d s s'

/-- A state the session can be in: reachable from the initial state by
finitely many session steps. -/
def ReachableState (diffS : DifficultySetting) (d : Difficulty) (st0 : GameStats)
    (s : SimState) : Prop :=
  Relation.ReflTransGen (SessionStep diffS d) (initState diffS st0) s

theorem spawnBoss_boss_inv (diffS : DifficultySetting) (width : ℝ) (r : BossRoll)
    (s : SimState)
    (h1 : bossCount s.targets ≤ 1)
    (h2 : s.bossActive = false → bossCount s.targets = 0) :
    bossCount (spawnBoss diffS width r s).targets ≤ 1 ∧
    ((spawnBoss diffS width r s).bossActive = false →
      bossCount (spawnBoss diffS width r s).targets = 0) := by
  unfold spawnBoss
  split
  case isTrue hc =>
    have hz : bossCount s.targets = 0 := h2 hc.1
    have hthin : bossCount (thinFilter r.keep s.targets) = 0 :=
      Nat.le_zero.mp (hz ▸ bossCount_thinFilterAux r.keep s.targets 0)
    have happ : bossCount (thinFilter r.keep s.targets ++
        [mkBossTarget diffS width s.level r]) = 1 := by
      rw [bossCount_append, hthin, bossCount_cons,
        if_pos (show (mkBossTarget diffS width s.level r).type = TargetType.BOSS from rfl)]
      rfl
    refine ⟨?_, ?_⟩
    · show bossCount (thinFilter r.keep s.targets ++
        [mkBossTarget diffS width s.level r]) ≤ 1
      rw [happ]
    · intro hb
      exact Bool.noConfusion hb
  case isFalse hc =>
    exact ⟨h1, h2⟩

theorem spawnOrdinary_boss_inv (diffS : DifficultySetting) (d : Difficulty)
    (playableHeight : ℝ) (r : SpawnRoll) (s : SimState)
    (h1 : bossCount s.targets ≤ 1)
    (h2 : s.bossActive = false → bossCount s.targets = 0) :
    bossCount (spawnOrdinary diffS d playableHeight r s).targets ≤ 1 ∧
    ((spawnOrdinary diffS d playableHeight r s).bossActive = false →
      bossCount (spawnOrdinary diffS d playableHeight r s).targets = 0) := by
  unfold spawnOrdinary
  simp only []
  split
  case isTrue hc =>
    have hmk : bossCount (s.targets ++ [mkSpawnedTarget diffS d playableHeight r s]) =
        bossCount s.targets := by
      rw [bossCount_append, bossCount_cons,
        if_neg (show ¬ (mkSpawnedTarget diffS d playableHeight r s).type = TargetType.BOSS
          from fun hh => rollTargetType_ne_boss d s.score r.roll r.typeRoll hh)]
      rfl
    refine ⟨?_, fun hb => ?_⟩
    · show bossCount (s.targets ++ [mkSpawnedTarget diffS d playableHeight r s]) ≤ 1
      rw [hmk]; exact h1
    · show bossCount (s.targets ++ [mkSpawnedTarget diffS d playableHeight r s]) = 0
      rw [hmk]; exact h2 hb
  case isFalse hc =>
    exact ⟨h1, h2⟩

theorem bossSummonStep_boss_inv (deltaTime : ℝ) (i : ℕ) (r : MinionRoll)
    (s : SimState)
    (h1 : bossCount s.targets ≤ 1)
    (h2 : s.bossActive = false → bossCount s.targets = 0) :
    bossCount (bossSummonStep deltaTime i r s).targets ≤ 1 ∧
    ((bossSummonStep deltaTime i r s).bossActive = false →
      bossCount (bossSummonStep deltaTime i r s).targets = 0) := by
  have key : bossCount (bossSummonStep deltaTime i r s).targets = bossCount s.targets ∧
      (bossSummonStep deltaTime i r s).bossActive = s.bossActive := by
    unfold bossSummonStep
    simp only []
    split
    case isTrue hb =>
      split
      case isTrue ht =>
        refine ⟨?_, rfl⟩
        show bossCount (s.targets.set i
            { s.targets.getD i default with summonTimer := some 5000 } ++
            [mkMinion (s.targets.getD i default) r.angle1 r.v1x r.v1y,
             mkMinion (s.targets.getD i default) r.angle2 r.v2x r.v2y]) =
          bossCount s.targets
        rw [bossCount_append,
          bossCount_set s.targets i
            { s.targets.getD i default with summonTimer := some 5000 } rfl,
          bossCount_cons, bossCount_cons,
          if_neg (show ¬ (mkMinion (s.targets.getD i default) r.angle2 r.v2x r.v2y).type =
            TargetType.BOSS from fun hh => TargetType.noConfusion hh),
          if_neg (show ¬ (mkMinion (s.targets.getD i default) r.angle1 r.v1x r.v1y).type =
            TargetType.BOSS from fun hh => TargetType.noConfusion hh)]
        rfl
      case isFalse ht =>
        refine ⟨?_, rfl⟩
        show bossCount (s.targets.set i
            { s.targets.getD i default with
              summonTimer := some ((s.targets.getD i default).summonTimer.getD 0 -
                deltaTime) }) = bossCount s.targets
        exact bossCount_set s.targets i _ rfl
    case isFalse hb =>
      exact ⟨rfl, rfl⟩
  rw [key.1, key.2]
  exact ⟨h1, h2⟩

theorem resolveHit_boss_inv (diffS : DifficultySetting) (sr : SplitRoll)
    (p : Projectile) (i : ℕ) (s : SimState) (hi : i < s.targets.length)
    (h1 : bossCount s.targets ≤ 1)
    (h2 : s.bossActive = false → bossCount s.targets = 0) :
    bossCount (resolveHit diffS sr p i s).targets ≤ 1 ∧
    ((resolveHit diffS sr p i s).bossActive = false →
      bossCount (resolveHit diffS sr p i s).targets = 0) := by
  by_cases hcol : p.color = (s.targets.getD i default).color
  · by_cases hdmg : ((s.targets.getD i default).type = TargetType.TOUGH ∨
        (s.targets.getD i default).type = TargetType.BOSS) ∧
        (s.targets.getD i default).health > 1
    · obtain ⟨ht, hba⟩ := resolveHit_damage_shape diffS sr p i s hcol hdmg
      have hcnt : bossCount (resolveHit diffS sr p i s).targets = bossCount s.targets := by
        rw [ht]
        exact bossCount_set s.targets i _ rfl
      rw [hcnt, hba]
      exact ⟨h1, h2⟩
    · by_cases hbt : (s.targets.getD i default).type = TargetType.BOSS
      · obtain ⟨ht, hba⟩ := resolveHit_destroy_boss_shape diffS sr p i s hcol hdmg hbt
        have hcnt := bossCount_eraseIdx_boss s.targets i hi hbt
        rw [ht, hba]
        have hz : bossCount (s.targets.eraseIdx i) = 0 := by omega
        rw [hz]
        exact ⟨Nat.zero_le 1, fun _ => rfl⟩
      · obtain ⟨ht, hba⟩ := resolveHit_destroy_nonboss_shape diffS sr p i s hcol hdmg hbt
        have herase := bossCount_eraseIdx_nonboss s.targets i hbt
        have hchild : bossCount [splitChild (s.targets.getD i default) 0 sr.rotSpeed1,
            splitChild (s.targets.getD i default) 1 sr.rotSpeed2] = 0 := by
          rw [bossCount_cons, bossCount_cons,
            if_neg (show ¬ (splitChild (s.targets.getD i default) 1 sr.rotSpeed2).type =
              TargetType.BOSS from fun hh => TargetType.noConfusion hh),
            if_neg (show ¬ (splitChild (s.targets.getD i default) 0 sr.rotSpeed1).type =
              TargetType.BOSS from fun hh => TargetType.noConfusion hh)]
          rfl
        have hcnt : bossCount (resolveHit diffS sr p i s).targets = bossCount s.targets := by
          cases ht with
          | inl hteq => rw [hteq, herase]
          | inr hteq =>
            rw [hteq, bossCount_append, herase, hchild]
            rfl
        rw [hcnt, hba]
        exact ⟨h1, h2⟩
  · obtain ⟨ht, hba⟩ := resolveHit_mismatch_shape diffS sr p i s hcol
    rw [ht, hba]
    exact ⟨h1, h2⟩

theorem sessionStep_boss_inv (diffS : DifficultySetting) (d : Difficulty)
    {s s' : SimState} (hstep : SessionStep diffS d s s')
    (h1 : bossCount s.targets ≤ 1)
    (h2 : s.bossActive = false → bossCount s.targets = 0) :
    bossCount s'.targets ≤ 1 ∧ (s'.bossActive = false → bossCount s'.targets = 0) := by
  cases hstep with
  | bossTrigger width r s => exact spawnBoss_boss_inv diffS width r s h1 h2
  | ordinarySpawn playableHeight r s =>
      exact spawnOrdinary_boss_inv diffS d playableHeight r s h1 h2
  | minionSummon deltaTime i r s => exact bossSummonStep_boss_inv deltaTime i r s h1 h2
  | projectileHit sr p i s hi => exact resolveHit_boss_inv diffS sr p i s hi h1 h2
  | tutorialSpawn width height c s =>
      have hcnt : bossCount (s.targets ++ [tutorialTarget width height c]) =
          bossCount s.targets := by
        rw [bossCount_append, bossCount_cons,
          if_neg (show ¬ (tutorialTarget width height c).type = TargetType.BOSS from
            fun hh => TargetType.noConfusion hh)]
        rfl
      show bossCount (s.targets ++ [tutorialTarget width height c]) ≤ 1 ∧
        (s.bossActive = false →
          bossCount (s.targets ++ [tutorialTarget width height c]) = 0)
      rw [hcnt]
      exact ⟨h1, h2⟩
  | frame s s' hty hba =>
      have hle : bossCount s'.targets ≤ bossCount s.targets := by
        have := List.Sublist.countP_le
          (fun ty => decide (ty = TargetType.BOSS)) hty
        rw [List.countP_map, List.countP_map] at this
        exact this
      refine ⟨le_trans hle h1, fun hb => ?_⟩
      have hz : bossCount s.targets = 0 := h2 (hba ▸ hb)
      omega

/-- C5: at every reachable state of a session, at most one BOSS-kind
target is present in the active target list; moreover whenever the
boss-active flag is false there is no BOSS target at all — a boss is
only ever spawned when the flag is false (and spawning sets it true),
and the flag is cleared exactly when the boss is destroyed. -/
theorem boss_uniqueness_invariant (diffS : DifficultySetting) (d : Difficulty)
    (st0 : GameStats) (s : SimState)
    (h : ReachableState diffS d st0 s) :
    bossCount s.targets ≤ 1 ∧ (s.bossActive = false → bossCount s.targets = 0) := by
  induction h with
  | refl => exact ⟨Nat.zero_le 1, fun _ => rfl⟩
  | tail hab hbc ih => exact sessionStep_boss_inv diffS d hbc ih.1 ih.2

theorem boss_uniqueness_invariant_witness :
    ReachableState (DIFFICULTY_SETTINGS Difficulty.MEDIUM) Difficulty.MEDIUM
      initialStats (initState (DIFFICULTY_SETTINGS Difficulty.MEDIUM) initialStats) ∧
    bossCount (initState (DIFFICULTY_SETTINGS Difficulty.MEDIUM)
      initialStats).targets ≤ 1 ∧
    ((initState (DIFFICULTY_SETTINGS Difficulty.MEDIUM) initialStats).bossActive =
        false →
      bossCount (initState (DIFFICULTY_SETTINGS Difficulty.MEDIUM)
        initialStats).targets = 0) :=
  ⟨Relation.ReflTransGen.refl,
   boss_uniqueness_invariant (DIFFICULTY_SETTINGS Difficulty.MEDIUM) Difficulty.MEDIUM
     initialStats (initState (DIFFICULTY_SETTINGS Difficulty.MEDIUM) initialStats)
     Relation.ReflTransGen.refl⟩
